import Mathlib

/-!
# Lock-screen view controller (`applications/desktop/views/desktop_view_dumb.c`)

A shallow embedding of the lock-screen view of the desktop application.

* The C object `DesktopViewLocked` owns a view model (`DesktopViewLockedModel`), a
  periodic timer, the 8-bit press counter `lock_count` and the 32-bit tick stamp
  `lock_lastpress`.  Here it is a record that is passed in and returned.
* The timer is the pair "dormant / active with a period": `timer = none` is a
  stopped timer, `timer = some p` a running timer whose period is `p` ms.
  `xTimerChangePeriod` makes the timer active with the new period, `xTimerStop`
  makes it dormant.
* `dumb_view->callback(event, context)` is embedded as the list of events a call
  hands to the callback, in order.
* `furi_assert` is embedded as a fallible result: `none` is the failed assertion.
* `uint8_t` and `uint32_t` arithmetic is arithmetic on `Nat` with an explicit
  `% 256` and `% 4294967296`.
-/

namespace DesktopViewDumb

/-! ## Constants -/

/-- `#define DOOR_MOVING_INTERVAL_MS (1000 / 16)` -/
def DOOR_MOVING_INTERVAL_MS : Nat := 1000 / 16

/-- `#define LOCKED_HINT_TIMEOUT_MS (1000)` -/
def LOCKED_HINT_TIMEOUT_MS : Nat := 1000

/-- `#define UNLOCKED_HINT_TIMEOUT_MS (2000)` -/
def UNLOCKED_HINT_TIMEOUT_MS : Nat := 2000

/-- `#define DOOR_OFFSET_START -55` -/
def DOOR_OFFSET_START : Int := -55

/-- `#define DOOR_OFFSET_END 0` -/
def DOOR_OFFSET_END : Int := 0

/-- `#define DOOR_L_FINAL_POS 0` -/
def DOOR_L_FINAL_POS : Int := 0

/-- `#define DOOR_R_FINAL_POS 60` -/
def DOOR_R_FINAL_POS : Int := 60

/-- `#define UNLOCK_CNT 3` -/
def UNLOCK_CNT : Nat := 3

/-- `#define UNLOCK_RST_TIMEOUT 600` -/
def UNLOCK_RST_TIMEOUT : Nat := 600

/-! ## Data model -/

/-- The enum `DesktopViewLockedState` of the source, constructors in the source order. -/
inductive DesktopViewLockedState
  | DesktopViewLockedStateUnlocked
  | DesktopViewLockedStateLocked
  | DesktopViewLockedStateDoorsClosing
  | DesktopViewLockedStateLockedHintShown
  | DesktopViewLockedStateUnlockedHintShown
  deriving DecidableEq, Repr

open DesktopViewLockedState

/-- The struct `DesktopViewLockedModel`.  `door_offset` is an `int8_t`; every value the
code stores in it lies in `[-55, 0]`, so it is kept as an `Int` without wrapping. -/
structure DesktopViewLockedModel where
  pin_locked : Bool
  door_offset : Int
  view_state : DesktopViewLockedState
  deriving DecidableEq, Repr

/-- The struct `DesktopViewLocked`: the view model it owns, the timer
(`none` = dormant, `some p` = active with period `p` ms), the `uint8_t lock_count`
and the `uint32_t lock_lastpress`.  The callback and its context are not state: the
events handed to the callback are returned by the operations. -/
structure DesktopViewLocked where
  model : DesktopViewLockedModel
  timer : Option Nat
  lock_count : Nat
  lock_lastpress : Nat
  deriving DecidableEq, Repr

/-- Modelled from the spec: the enum `InputType` of the input service is declared outside
this file; the spec lists the phases `press, release, short, long, repeat`. -/
inductive InputType
  | InputTypePress
  | InputTypeRelease
  | InputTypeShort
  | InputTypeLong
  | InputTypeRepeat
  deriving DecidableEq, Repr

/-- Modelled from the spec: the enum `InputKey` of the input service is declared outside
this file; the code only compares a key with `InputKeyBack`, the designated "back" key of
the spec.  The other constructors are the remaining keys of the device. -/
inductive InputKey
  | InputKeyUp
  | InputKeyDown
  | InputKeyRight
  | InputKeyLeft
  | InputKeyOk
  | InputKeyBack
  deriving DecidableEq, Repr

open InputType InputKey

/-- The two fields of `InputEvent` the code reads: `event->key` and `event->type`. -/
structure InputEvent where
  key : InputKey
  type : InputType
  deriving DecidableEq, Repr

/-- Modelled from the spec: the events handed to the callback are declared outside this
file; the spec names the notifications `ShowPinInput`, `Unlocked` and `Update`. -/
inductive DesktopLockedEvent
  | DesktopLockedEventUnlocked
  | DesktopLockedEventUpdate
  | DesktopLockedEventShowPinInput
  deriving DecidableEq, Repr

open DesktopLockedEvent

/-- What one call of the input callback produces: the view afterwards, the events handed
to the callback in order, and the returned `bool` ("consumed"). -/
structure InputResult where
  view : DesktopViewLocked
  events : List DesktopLockedEvent
  consumed : Bool
  deriving DecidableEq, Repr

/-! ## Helpers for machine arithmetic -/

/-- Modelled from the spec: the macro `CLAMP(x, upper, lower)` comes from the firmware
core headers, not from this file; the spec describes the door step as
`min(offset + STEP, CLOSED_OFFSET)` clamped between the start and the closed offset, which
is `min upper (max x lower)`. -/
def CLAMP (x upper lower : Int) : Int := min upper (max x lower)

/-- Subtraction of two `uint32_t` values, as in `press_time - lock_lastpress`. -/
def sub_u32 (a b : Nat) : Nat := (a % 4294967296 + 4294967296 - b % 4294967296) % 4294967296

/-! ## Operations -/

/-- `desktop_view_dumb_doors_move`: moves the doors by 5 when they are not closed yet and
returns `true` exactly when it moved them. -/
def desktop_view_dumb_doors_move (model : DesktopViewLockedModel) :
    DesktopViewLockedModel × Bool :=
  if model.door_offset < DOOR_OFFSET_END then
    ({ model with
        door_offset := CLAMP (model.door_offset + 5) DOOR_OFFSET_END DOOR_OFFSET_START },
      true)
  else
    (model, false)

/-- `desktop_view_dumb_update_hint_icon_timeout`: shows the hint when the view is locked
without PIN, and always restarts the timer with the hint period. -/
def desktop_view_dumb_update_hint_icon_timeout (v : DesktopViewLocked) : DesktopViewLocked :=
  let change_state :=
    decide (v.model.view_state = DesktopViewLockedStateLocked) && !v.model.pin_locked
  let model :=
    if change_state then
      { v.model with view_state := DesktopViewLockedStateLockedHintShown }
    else v.model
  { v with model := model, timer := some LOCKED_HINT_TIMEOUT_MS }

/-- `desktop_view_locked_update`: the step run for every timer tick.  `view_state` is the
state read on entry; `&&` short-circuits, so the doors move only in `DoorsClosing`. -/
def desktop_view_locked_update (v : DesktopViewLocked) : DesktopViewLocked :=
  let view_state := v.model.view_state
  let moved :=
    if view_state = DesktopViewLockedStateDoorsClosing then
      desktop_view_dumb_doors_move v.model
    else (v.model, true)
  let model :=
    if view_state = DesktopViewLockedStateDoorsClosing ∧ moved.2 = false then
      { moved.1 with view_state := DesktopViewLockedStateLocked }
    else if view_state = DesktopViewLockedStateLockedHintShown then
      { moved.1 with view_state := DesktopViewLockedStateLocked }
    else if view_state = DesktopViewLockedStateUnlockedHintShown then
      { moved.1 with view_state := DesktopViewLockedStateUnlocked }
    else moved.1
  let timer := if view_state ≠ DesktopViewLockedStateDoorsClosing then none else v.timer
  { v with model := model, timer := timer }

/-- `desktop_view_locked_input`: the input callback.  `tick_count` is the value
`xTaskGetTickCount()` returns, stored in the `uint32_t press_time`. -/
def desktop_view_locked_input (event : InputEvent) (tick_count : Nat)
    (v : DesktopViewLocked) : InputResult :=
  let press_time := tick_count % 4294967296
  let model :=
    if v.model.view_state = DesktopViewLockedStateUnlockedHintShown ∧
        event.type = InputTypePress then
      { v.model with view_state := DesktopViewLockedStateUnlocked }
    else v.model
  let view_state := model.view_state
  let pin_locked := model.pin_locked
  let v1 : DesktopViewLocked := { v with model := model }
  if view_state = DesktopViewLockedStateUnlocked ∨ event.type ≠ InputTypeShort then
    { view := v1, events := [],
      consumed := decide (view_state ≠ DesktopViewLockedStateUnlocked) }
  else if view_state = DesktopViewLockedStateLocked ∧ pin_locked = true then
    { view := v1, events := [DesktopLockedEventShowPinInput], consumed := true }
  else if view_state = DesktopViewLockedStateLocked ∨
      view_state = DesktopViewLockedStateLockedHintShown then
    let v2 : DesktopViewLocked :=
      if sub_u32 press_time v1.lock_lastpress > UNLOCK_RST_TIMEOUT then
        { v1 with lock_lastpress := press_time, lock_count := 0 }
      else v1
    let v3 := desktop_view_dumb_update_hint_icon_timeout v2
    let counted : DesktopViewLocked × List DesktopLockedEvent :=
      if event.key = InputKeyBack then
        let v4 : DesktopViewLocked :=
          { v3 with lock_lastpress := press_time, lock_count := (v3.lock_count + 1) % 256 }
        (v4, if v4.lock_count = UNLOCK_CNT then [DesktopLockedEventUnlocked] else [])
      else
        ({ v3 with lock_count := 0 }, [])
    { view := { counted.1 with lock_lastpress := press_time },
      events := counted.2, consumed := true }
  else
    { view := v1, events := [], consumed := true }

/-- `desktop_view_locked_alloc`: the allocator hands out zeroed memory, so the view starts
in the first state of the enum with the counters at 0; the timer is created dormant. -/
def desktop_view_locked_alloc : DesktopViewLocked :=
  { model := { pin_locked := false, door_offset := 0,
               view_state := DesktopViewLockedStateUnlocked },
    timer := none, lock_count := 0, lock_lastpress := 0 }

/-- `desktop_view_locked_close_doors`: asserts the view is locked, then starts the door
animation. -/
def desktop_view_locked_close_doors (v : DesktopViewLocked) : Option DesktopViewLocked :=
  if v.model.view_state = DesktopViewLockedStateLocked then
    some { v with
      model := { v.model with view_state := DesktopViewLockedStateDoorsClosing,
                              door_offset := DOOR_OFFSET_START },
      timer := some DOOR_MOVING_INTERVAL_MS }
  else none

/-- `desktop_view_locked_lock`: asserts the view is unlocked, then locks it. -/
def desktop_view_locked_lock (v : DesktopViewLocked) (pin_locked : Bool) :
    Option DesktopViewLocked :=
  if v.model.view_state = DesktopViewLockedStateUnlocked then
    some { v with
      model := { v.model with view_state := DesktopViewLockedStateLocked,
                              pin_locked := pin_locked } }
  else none

/-- `desktop_view_locked_unlock`: clears the counter and shows the "Unlocked" hint. -/
def desktop_view_locked_unlock (v : DesktopViewLocked) : DesktopViewLocked :=
  { v with
    lock_count := 0,
    model := { v.model with view_state := DesktopViewLockedStateUnlockedHintShown,
                            pin_locked := false },
    timer := some UNLOCKED_HINT_TIMEOUT_MS }

/-- `desktop_view_locked_is_locked_hint_visible`. -/
def desktop_view_locked_is_locked_hint_visible (v : DesktopViewLocked) : Bool :=
  decide (v.model.view_state = DesktopViewLockedStateLockedHintShown)

/-! ## Presentation -/

/-- The icons the draw callback names. -/
inductive Icon
  | I_DoorLeft_70x55
  | I_DoorRight_70x55
  | I_Pin_back_arrow_10x8
  | I_WarningDolphin_45x42
  deriving DecidableEq, Repr

/-- The fonts the draw callback names. -/
inductive Font
  | FontPrimary
  | FontSecondary
  deriving DecidableEq, Repr

open Icon Font

/-- One call on the canvas, with the arguments the code passes; the canvas itself is not
modelled.  `canvas_set_color` is only ever called with `ColorBlack`. -/
inductive DrawCommand
  | canvas_set_color_black
  | canvas_set_font (font : Font)
  | canvas_draw_icon (x y : Int) (icon : Icon)
  | elements_multiline_text_framed (x y : Int) (text : String)
  | elements_bold_rounded_frame (x y width height : Int)
  | elements_multiline_text (x y : Int) (text : String)
  | canvas_draw_dot (x y : Int)
  deriving DecidableEq, Repr

/-- What the draw code reads from outside this file: the value `canvas_height(canvas)`
returns, the value `icon_get_height(&I_DoorLeft_70x55)` returns, and the macro
`STATUS_BAR_Y_SHIFT`. -/
structure DrawEnv where
  canvas_height : Int
  door_icon_height : Nat
  STATUS_BAR_Y_SHIFT : Int
  deriving DecidableEq, Repr

/-- `desktop_view_dumb_doors_draw`: `door_left_x`, `door_right_x` and `height` are
`uint8_t` variables, so each holds its initialiser mod 256. -/
def desktop_view_dumb_doors_draw (env : DrawEnv) (model : DesktopViewLockedModel) :
    List DrawCommand :=
  let offset := model.door_offset
  let door_left_x := (DOOR_L_FINAL_POS + offset) % 256
  let door_right_x := (DOOR_R_FINAL_POS - offset) % 256
  let height : Int := ((env.door_icon_height % 256 : Nat) : Int)
  [ DrawCommand.canvas_draw_icon door_left_x (env.canvas_height - height) I_DoorLeft_70x55,
    DrawCommand.canvas_draw_icon door_right_x (env.canvas_height - height) I_DoorRight_70x55 ]

/-- `desktop_view_locked_draw`: the draw callback.  In state `DoorsClosing` it calls
`desktop_view_locked_doors_draw`, a name this file does not define; the routine it calls is
the parameter `doors_draw`. -/
def desktop_view_locked_draw (env : DrawEnv)
    (doors_draw : DrawEnv → DesktopViewLockedModel → List DrawCommand)
    (m : DesktopViewLockedModel) : List DrawCommand :=
  let view_state := m.view_state
  DrawCommand.canvas_set_color_black ::
    (if view_state = DesktopViewLockedStateDoorsClosing then
      doors_draw env m ++
        [ DrawCommand.canvas_set_font FontPrimary,
          DrawCommand.elements_multiline_text_framed 42 (30 + env.STATUS_BAR_Y_SHIFT)
            "Locked" ]
    else if view_state = DesktopViewLockedStateLockedHintShown then
      [ DrawCommand.canvas_set_font FontSecondary,
        DrawCommand.elements_bold_rounded_frame 14 (2 + env.STATUS_BAR_Y_SHIFT) 99 48,
        DrawCommand.elements_multiline_text 65 (20 + env.STATUS_BAR_Y_SHIFT)
          "To unlock\npress:",
        DrawCommand.canvas_draw_icon 65 (36 + env.STATUS_BAR_Y_SHIFT) I_Pin_back_arrow_10x8,
        DrawCommand.canvas_draw_icon 80 (36 + env.STATUS_BAR_Y_SHIFT) I_Pin_back_arrow_10x8,
        DrawCommand.canvas_draw_icon 95 (36 + env.STATUS_BAR_Y_SHIFT) I_Pin_back_arrow_10x8,
        DrawCommand.canvas_draw_icon 16 (7 + env.STATUS_BAR_Y_SHIFT) I_WarningDolphin_45x42,
        DrawCommand.canvas_draw_dot 17 61 ]
    else if view_state = DesktopViewLockedStateUnlockedHintShown then
      [ DrawCommand.canvas_set_font FontPrimary,
        DrawCommand.elements_multiline_text_framed 42 (30 + env.STATUS_BAR_Y_SHIFT)
          "Unlocked" ]
    else [])

/-- The x coordinates of the `canvas_draw_icon` commands of a list that draw `icon`. -/
def icon_xs (icon : Icon) : List DrawCommand → List Int
  | [] => []
  | DrawCommand.canvas_draw_icon x _ i :: rest =>
    if i = icon then x :: icon_xs icon rest else icon_xs icon rest
  | _ :: rest => icon_xs icon rest

/-! ## Runs -/

/-- The view after `n` timer ticks with nothing in between. -/
def run_updates : Nat → DesktopViewLocked → DesktopViewLocked
  | 0, v => v
  | n + 1, v => desktop_view_locked_update (run_updates n v)

/-- Delivers a list of input events, each with its tick count, one after another; returns
the final view and, per event, the events handed to the callback and the returned flag. -/
def run_inputs : List (InputEvent × Nat) → DesktopViewLocked →
    DesktopViewLocked × List (List DesktopLockedEvent × Bool)
  | [], v => (v, [])
  | (e, t) :: rest, v =>
    let r := desktop_view_locked_input e t v
    let out := run_inputs rest r.view
    (out.1, (r.events, r.consumed) :: out.2)

/-- The pairs (state, timer) the code can be in: in the three transient states the timer
runs with the period of that state; in `Unlocked` and `Locked` it is dormant or still runs
with the period of the transient state that was left. -/
def clock_inv : DesktopViewLockedState → Option Nat → Prop
  | DesktopViewLockedStateUnlocked, tm => tm = none ∨ tm = some UNLOCKED_HINT_TIMEOUT_MS
  | DesktopViewLockedStateLocked, tm =>
      tm = none ∨ tm = some DOOR_MOVING_INTERVAL_MS ∨ tm = some UNLOCKED_HINT_TIMEOUT_MS
  | DesktopViewLockedStateDoorsClosing, tm => tm = some DOOR_MOVING_INTERVAL_MS
  | DesktopViewLockedStateLockedHintShown, tm => tm = some LOCKED_HINT_TIMEOUT_MS
  | DesktopViewLockedStateUnlockedHintShown, tm => tm = some UNLOCKED_HINT_TIMEOUT_MS

/-- The invariant `clock_inv` is decidable: each case compares the timer with constants. -/
instance clock_inv_decidable (st : DesktopViewLockedState) (tm : Option Nat) :
    Decidable (clock_inv st tm) := by
  cases st <;> unfold clock_inv <;> infer_instance

/-- The views reachable from a freshly created one (state `Unlocked`, timer dormant) by
the public operations, the guarded ones only where their assertion holds. -/
inductive Reachable : DesktopViewLocked → Prop
  | init (v : DesktopViewLocked) :
      v.model.view_state = DesktopViewLockedStateUnlocked → v.timer = none → Reachable v
  | lock (v w : DesktopViewLocked) (p : Bool) :
      Reachable v → desktop_view_locked_lock v p = some w → Reachable w
  | close_doors (v w : DesktopViewLocked) :
      Reachable v → desktop_view_locked_close_doors v = some w → Reachable w
  | unlock (v : DesktopViewLocked) :
      Reachable v → Reachable (desktop_view_locked_unlock v)
  | update (v : DesktopViewLocked) :
      Reachable v → Reachable (desktop_view_locked_update v)
  | input (v : DesktopViewLocked) (e : InputEvent) (t : Nat) :
      Reachable v → Reachable (desktop_view_locked_input e t v).view

/-- The views reachable by the public operations, the guarded ones only where their
assertion holds, from any view in state `Unlocked`: nothing is assumed about the initial
`pin_locked`, timer or counters. -/
inductive ReachableFromUnlocked : DesktopViewLocked → Prop
  | init (v : DesktopViewLocked) :
      v.model.view_state = DesktopViewLockedStateUnlocked → ReachableFromUnlocked v
  | lock (v w : DesktopViewLocked) (p : Bool) :
      ReachableFromUnlocked v → desktop_view_locked_lock v p = some w →
      ReachableFromUnlocked w
  | close_doors (v w : DesktopViewLocked) :
      ReachableFromUnlocked v → desktop_view_locked_close_doors v = some w →
      ReachableFromUnlocked w
  | unlock (v : DesktopViewLocked) :
      ReachableFromUnlocked v → ReachableFromUnlocked (desktop_view_locked_unlock v)
  | update (v : DesktopViewLocked) :
      ReachableFromUnlocked v → ReachableFromUnlocked (desktop_view_locked_update v)
  | input (v : DesktopViewLocked) (e : InputEvent) (t : Nat) :
      ReachableFromUnlocked v → ReachableFromUnlocked (desktop_view_locked_input e t v).view

/-! ## Shared lemmas -/

/-- The `uint32_t` difference of the model is the difference of the two tick counts
taken mod `2^32`. -/
lemma sub_u32_eq_emod (t last : Nat) :
    ((sub_u32 (t % 4294967296) last : Nat) : Int) = ((t : Int) - (last : Int)) % 4294967296 := by
  unfold sub_u32
  omega

/-- A short press while the gesture is accepted (locked without PIN, or hint shown): the
whole result of the input callback in closed form. -/
lemma input_gesture (e : InputEvent) (t : Nat) (v : DesktopViewLocked)
    (hs : e.type = InputTypeShort)
    (hst : (v.model.view_state = DesktopViewLockedStateLocked ∧ v.model.pin_locked = false) ∨
      v.model.view_state = DesktopViewLockedStateLockedHintShown) :
    desktop_view_locked_input e t v =
      { view :=
          { model := { v.model with view_state := DesktopViewLockedStateLockedHintShown },
            timer := some LOCKED_HINT_TIMEOUT_MS,
            lock_count :=
              if e.key = InputKeyBack then
                ((if sub_u32 (t % 4294967296) v.lock_lastpress > UNLOCK_RST_TIMEOUT then 0
                  else v.lock_count) + 1) % 256
              else 0,
            lock_lastpress := t % 4294967296 },
        events :=
          if e.key = InputKeyBack ∧
              ((if sub_u32 (t % 4294967296) v.lock_lastpress > UNLOCK_RST_TIMEOUT then 0
                else v.lock_count) + 1) % 256 = UNLOCK_CNT then
            [DesktopLockedEventUnlocked]
          else [],
        consumed := true } := by
  obtain ⟨⟨pin, off, st⟩, tm, cnt, last⟩ := v
  simp only at hst
  by_cases hk : e.key = InputKeyBack <;>
    by_cases hr : sub_u32 (t % 4294967296) last > UNLOCK_RST_TIMEOUT <;>
    rcases hst with ⟨h1, h2⟩ | h1 <;>
    subst_vars <;>
    simp [desktop_view_locked_input, desktop_view_dumb_update_hint_icon_timeout, hs, hk, hr]

/-- A short press on a view locked with PIN only asks for the PIN input. -/
lemma input_pin_locked (e : InputEvent) (t : Nat) (v : DesktopViewLocked)
    (hs : e.type = InputTypeShort)
    (hst : v.model.view_state = DesktopViewLockedStateLocked) (hpin : v.model.pin_locked = true) :
    desktop_view_locked_input e t v =
      { view := v, events := [DesktopLockedEventShowPinInput], consumed := true } := by
  obtain ⟨⟨pin, off, st⟩, tm, cnt, last⟩ := v
  simp only at hst hpin
  subst_vars
  simp [desktop_view_locked_input, hs]

/-! ## Claims -/

/-- C1: from a view locked without PIN whose press counter is 0, three short presses of
Back delivered one after another at times `t1 ≤ t2 ≤ t3` with `t3 - t1 < 600` hand the
`Unlocked` event to the callback on the third press and nothing on the first two. -/
theorem C1_three_back_presses_emit_unlocked (v : DesktopViewLocked) (t1 t2 t3 : Nat)
    (hst : v.model.view_state = DesktopViewLockedStateLocked)
    (hpin : v.model.pin_locked = false) (hcnt : v.lock_count = 0)
    (h12 : t1 ≤ t2) (h23 : t2 ≤ t3) (hwin : t3 - t1 < 600) :
    (desktop_view_locked_input ⟨InputKeyBack, InputTypeShort⟩ t1 v).events = [] ∧
    (desktop_view_locked_input ⟨InputKeyBack, InputTypeShort⟩ t2
      (desktop_view_locked_input ⟨InputKeyBack, InputTypeShort⟩ t1 v).view).events = [] ∧
    (desktop_view_locked_input ⟨InputKeyBack, InputTypeShort⟩ t3
      (desktop_view_locked_input ⟨InputKeyBack, InputTypeShort⟩ t2
        (desktop_view_locked_input ⟨InputKeyBack, InputTypeShort⟩ t1 v).view).view).events =
      [DesktopLockedEventUnlocked] := by
  have e1 := input_gesture ⟨InputKeyBack, InputTypeShort⟩ t1 v rfl (Or.inl ⟨hst, hpin⟩)
  rw [e1]
  have e2 := input_gesture ⟨InputKeyBack, InputTypeShort⟩ t2
    { model := { v.model with view_state := DesktopViewLockedStateLockedHintShown },
      timer := some LOCKED_HINT_TIMEOUT_MS,
      lock_count := ((if sub_u32 (t1 % 4294967296) v.lock_lastpress > UNLOCK_RST_TIMEOUT then 0
        else v.lock_count) + 1) % 256,
      lock_lastpress := t1 % 4294967296 } rfl (Or.inr rfl)
  simp only [if_true] at e2 ⊢
  rw [e2]
  have h21 : ¬ sub_u32 (t2 % 4294967296) (t1 % 4294967296) > UNLOCK_RST_TIMEOUT := by
    unfold sub_u32 UNLOCK_RST_TIMEOUT
    omega
  have h32 : ¬ sub_u32 (t3 % 4294967296) (t2 % 4294967296) > UNLOCK_RST_TIMEOUT := by
    unfold sub_u32 UNLOCK_RST_TIMEOUT
    omega
  have e3 := input_gesture ⟨InputKeyBack, InputTypeShort⟩ t3
    { model := { v.model with view_state := DesktopViewLockedStateLockedHintShown },
      timer := some LOCKED_HINT_TIMEOUT_MS,
      lock_count := ((if sub_u32 (t2 % 4294967296) (t1 % 4294967296) > UNLOCK_RST_TIMEOUT then 0
        else ((if sub_u32 (t1 % 4294967296) v.lock_lastpress > UNLOCK_RST_TIMEOUT then 0
          else v.lock_count) + 1) % 256) + 1) % 256,
      lock_lastpress := t2 % 4294967296 } rfl (Or.inr rfl)
  simp only [if_true] at e3 ⊢
  rw [e3]
  simp [hcnt, h21, h32, UNLOCK_CNT]

/-- Witness for C1: presses at ticks 1000, 1200 and 1599 on the freshly locked view. -/
theorem C1_three_back_presses_emit_unlocked_witness :
    (desktop_view_locked_input ⟨InputKeyBack, InputTypeShort⟩ 1000
      ⟨⟨false, 0, DesktopViewLockedStateLocked⟩, none, 0, 0⟩).events = [] ∧
    (desktop_view_locked_input ⟨InputKeyBack, InputTypeShort⟩ 1200
      (desktop_view_locked_input ⟨InputKeyBack, InputTypeShort⟩ 1000
        ⟨⟨false, 0, DesktopViewLockedStateLocked⟩, none, 0, 0⟩).view).events = [] ∧
    (desktop_view_locked_input ⟨InputKeyBack, InputTypeShort⟩ 1599
      (desktop_view_locked_input ⟨InputKeyBack, InputTypeShort⟩ 1200
        (desktop_view_locked_input ⟨InputKeyBack, InputTypeShort⟩ 1000
          ⟨⟨false, 0, DesktopViewLockedStateLocked⟩, none, 0, 0⟩).view).view).events =
      [DesktopLockedEventUnlocked] :=
  C1_three_back_presses_emit_unlocked ⟨⟨false, 0, DesktopViewLockedStateLocked⟩, none, 0, 0⟩
    1000 1200 1599 rfl rfl rfl (by decide) (by decide) (by decide)

/-- C2: on the view `desktop_view_locked_lock` yields with `pin_locked = true`, every short
press (any key, any time) hands exactly the one event `ShowPinInput` to the callback,
returns `true` and leaves the whole view, hence the state `Locked`, `lock_count` and
`lock_lastpress`, as it was; the same holds for every further short press of any run. -/
theorem C2_pin_lock_short_press_shows_pin_input (v w : DesktopViewLocked)
    (hlock : desktop_view_locked_lock v true = some w)
    (presses : List (InputEvent × Nat))
    (hshort : ∀ p ∈ presses, p.1.type = InputTypeShort) :
    w.model.view_state = DesktopViewLockedStateLocked ∧
    w.lock_count = v.lock_count ∧ w.lock_lastpress = v.lock_lastpress ∧
    (∀ (e : InputEvent) (t : Nat), e.type = InputTypeShort →
      desktop_view_locked_input e t w =
        { view := w, events := [DesktopLockedEventShowPinInput], consumed := true }) ∧
    run_inputs presses w =
      (w, presses.map (fun _ => ([DesktopLockedEventShowPinInput], true))) := by
  unfold desktop_view_locked_lock at hlock
  split at hlock
  · injection hlock with hw
    have hst : w.model.view_state = DesktopViewLockedStateLocked := by rw [← hw]
    have hpin : w.model.pin_locked = true := by rw [← hw]
    refine ⟨hst, by rw [← hw], by rw [← hw], ?_, ?_⟩
    · intro e t hs
      exact input_pin_locked e t w hs hst hpin
    · clear hw
      induction presses with
      | nil => rfl
      | cons p rest ih =>
        obtain ⟨e, t⟩ := p
        have hs : e.type = InputTypeShort := hshort (e, t) (List.mem_cons_self _ _)
        have hrest : ∀ q ∈ rest, q.1.type = InputTypeShort :=
          fun q hq => hshort q (List.mem_cons_of_mem _ hq)
        simp only [run_inputs, input_pin_locked e t w hs hst hpin, ih hrest, List.map_cons]
  · exact absurd hlock (by simp)

/-- Witness for C2: the fresh view locked with PIN, then a short Back and a short Ok. -/
theorem C2_pin_lock_short_press_shows_pin_input_witness :
    (⟨⟨true, 0, DesktopViewLockedStateLocked⟩, none, 0, 0⟩ :
      DesktopViewLocked).model.view_state = DesktopViewLockedStateLocked ∧
    (⟨⟨true, 0, DesktopViewLockedStateLocked⟩, none, 0, 0⟩ : DesktopViewLocked).lock_count =
      desktop_view_locked_alloc.lock_count ∧
    (⟨⟨true, 0, DesktopViewLockedStateLocked⟩, none, 0, 0⟩ : DesktopViewLocked).lock_lastpress =
      desktop_view_locked_alloc.lock_lastpress ∧
    (∀ (e : InputEvent) (t : Nat), e.type = InputTypeShort →
      desktop_view_locked_input e t ⟨⟨true, 0, DesktopViewLockedStateLocked⟩, none, 0, 0⟩ =
        { view := ⟨⟨true, 0, DesktopViewLockedStateLocked⟩, none, 0, 0⟩,
          events := [DesktopLockedEventShowPinInput], consumed := true }) ∧
    run_inputs [(⟨InputKeyBack, InputTypeShort⟩, 10), (⟨InputKeyOk, InputTypeShort⟩, 5000)]
        ⟨⟨true, 0, DesktopViewLockedStateLocked⟩, none, 0, 0⟩ =
      (⟨⟨true, 0, DesktopViewLockedStateLocked⟩, none, 0, 0⟩,
        List.map (fun _ => ([DesktopLockedEventShowPinInput], true))
          ([(⟨InputKeyBack, InputTypeShort⟩, 10), (⟨InputKeyOk, InputTypeShort⟩, 5000)] :
            List (InputEvent × Nat))) :=
  C2_pin_lock_short_press_shows_pin_input desktop_view_locked_alloc
    ⟨⟨true, 0, DesktopViewLockedStateLocked⟩, none, 0, 0⟩ rfl
    [(⟨InputKeyBack, InputTypeShort⟩, 10), (⟨InputKeyOk, InputTypeShort⟩, 5000)]
    (by decide)

/-- C3: neither a timer tick nor an input event alone locks or unlocks.  For every view,
event and time, `desktop_view_locked_update` and `desktop_view_locked_input` keep a view in
state `Unlocked` in state `Unlocked`, and take a view in state `Locked`, `DoorsClosing` or
`LockedHintShown` to one of these three states again. -/
theorem C3_tick_and_input_never_lock_or_unlock (v : DesktopViewLocked) (e : InputEvent)
    (t : Nat) :
    (v.model.view_state = DesktopViewLockedStateUnlocked →
      (desktop_view_locked_update v).model.view_state = DesktopViewLockedStateUnlocked ∧
      (desktop_view_locked_input e t v).view.model.view_state =
        DesktopViewLockedStateUnlocked) ∧
    (v.model.view_state = DesktopViewLockedStateLocked ∨
      v.model.view_state = DesktopViewLockedStateDoorsClosing ∨
      v.model.view_state = DesktopViewLockedStateLockedHintShown →
      ((desktop_view_locked_update v).model.view_state = DesktopViewLockedStateLocked ∨
        (desktop_view_locked_update v).model.view_state = DesktopViewLockedStateDoorsClosing ∨
        (desktop_view_locked_update v).model.view_state =
          DesktopViewLockedStateLockedHintShown) ∧
      ((desktop_view_locked_input e t v).view.model.view_state =
          DesktopViewLockedStateLocked ∨
        (desktop_view_locked_input e t v).view.model.view_state =
          DesktopViewLockedStateDoorsClosing ∨
        (desktop_view_locked_input e t v).view.model.view_state =
          DesktopViewLockedStateLockedHintShown)) := by
  obtain ⟨⟨pin, off, st⟩, tm, cnt, last⟩ := v
  obtain ⟨k, ty⟩ := e
  refine ⟨?_, ?_⟩
  · intro h
    simp only at h
    subst h
    simp [desktop_view_locked_update, desktop_view_locked_input]
  · intro h
    simp only at h
    rcases h with h | h | h <;> subst h
    · refine ⟨by simp [desktop_view_locked_update], ?_⟩
      by_cases hs : ty = InputTypeShort
      · cases pin
        · rw [input_gesture ⟨k, ty⟩ t _ hs (Or.inl ⟨rfl, rfl⟩)]
          simp
        · rw [input_pin_locked ⟨k, ty⟩ t _ hs rfl rfl]
          simp
      · simp [desktop_view_locked_input, hs]
    · refine ⟨?_, ?_⟩
      · by_cases ho : off < DOOR_OFFSET_END <;>
          simp [desktop_view_locked_update, desktop_view_dumb_doors_move, ho]
      · by_cases hs : ty = InputTypeShort <;> simp [desktop_view_locked_input, hs]
    · refine ⟨by simp [desktop_view_locked_update], ?_⟩
      by_cases hs : ty = InputTypeShort
      · rw [input_gesture ⟨k, ty⟩ t _ hs (Or.inr rfl)]
        simp
      · simp [desktop_view_locked_input, hs]

/-- Witness for C3: a tick and a short Back press on the fresh (unlocked) view leave it
unlocked, and on a view locked without PIN they leave it on the locked side. -/
theorem C3_tick_and_input_never_lock_or_unlock_witness :
    ((desktop_view_locked_update desktop_view_locked_alloc).model.view_state =
        DesktopViewLockedStateUnlocked ∧
      (desktop_view_locked_input ⟨InputKeyBack, InputTypeShort⟩ 7
        desktop_view_locked_alloc).view.model.view_state = DesktopViewLockedStateUnlocked) ∧
    (((desktop_view_locked_update
          ⟨⟨false, 0, DesktopViewLockedStateLocked⟩, none, 2, 0⟩).model.view_state =
        DesktopViewLockedStateLocked ∨
      (desktop_view_locked_update
          ⟨⟨false, 0, DesktopViewLockedStateLocked⟩, none, 2, 0⟩).model.view_state =
        DesktopViewLockedStateDoorsClosing ∨
      (desktop_view_locked_update
          ⟨⟨false, 0, DesktopViewLockedStateLocked⟩, none, 2, 0⟩).model.view_state =
        DesktopViewLockedStateLockedHintShown) ∧
     ((desktop_view_locked_input ⟨InputKeyBack, InputTypeShort⟩ 7
          ⟨⟨false, 0, DesktopViewLockedStateLocked⟩, none, 2, 0⟩).view.model.view_state =
        DesktopViewLockedStateLocked ∨
      (desktop_view_locked_input ⟨InputKeyBack, InputTypeShort⟩ 7
          ⟨⟨false, 0, DesktopViewLockedStateLocked⟩, none, 2, 0⟩).view.model.view_state =
        DesktopViewLockedStateDoorsClosing ∨
      (desktop_view_locked_input ⟨InputKeyBack, InputTypeShort⟩ 7
          ⟨⟨false, 0, DesktopViewLockedStateLocked⟩, none, 2, 0⟩).view.model.view_state =
        DesktopViewLockedStateLockedHintShown)) :=
  ⟨(C3_tick_and_input_never_lock_or_unlock desktop_view_locked_alloc
      ⟨InputKeyBack, InputTypeShort⟩ 7).1 rfl,
   (C3_tick_and_input_never_lock_or_unlock
      ⟨⟨false, 0, DesktopViewLockedStateLocked⟩, none, 2, 0⟩
      ⟨InputKeyBack, InputTypeShort⟩ 7).2 (Or.inl rfl)⟩

/-- C4: the gesture timeout is checked against the stamp of the previous press.  In state
`Locked` without PIN or in state `LockedHintShown`, for every counter value and every short
press at tick `now`: when `(now - lock_lastpress) mod 2^32 > 600` the counter afterwards is
1 for Back and 0 for any other key, whatever it was, and `Unlocked` is not emitted; when
the difference is at most 600 the counter is not reset first, so Back leaves
`(lock_count + 1) mod 256` and `Unlocked` is emitted exactly when that value is 3. -/
theorem C4_timeout_checked_against_previous_press (v : DesktopViewLocked) (e : InputEvent)
    (now : Nat) (hs : e.type = InputTypeShort)
    (hst : (v.model.view_state = DesktopViewLockedStateLocked ∧ v.model.pin_locked = false) ∨
      v.model.view_state = DesktopViewLockedStateLockedHintShown) :
    (((now : Int) - (v.lock_lastpress : Int)) % 4294967296 > 600 →
      (desktop_view_locked_input e now v).view.lock_count =
        (if e.key = InputKeyBack then 1 else 0) ∧
      DesktopLockedEventUnlocked ∉ (desktop_view_locked_input e now v).events) ∧
    (((now : Int) - (v.lock_lastpress : Int)) % 4294967296 ≤ 600 →
      (desktop_view_locked_input e now v).view.lock_count =
        (if e.key = InputKeyBack then (v.lock_count + 1) % 256 else 0) ∧
      (desktop_view_locked_input e now v).events =
        (if e.key = InputKeyBack ∧ (v.lock_count + 1) % 256 = 3 then
          [DesktopLockedEventUnlocked] else [])) := by
  rw [input_gesture e now v hs hst]
  have hd := sub_u32_eq_emod now v.lock_lastpress
  refine ⟨?_, ?_⟩
  · intro hgt
    have hr : sub_u32 (now % 4294967296) v.lock_lastpress > UNLOCK_RST_TIMEOUT := by
      unfold UNLOCK_RST_TIMEOUT
      omega
    by_cases hk : e.key = InputKeyBack <;> simp [hr, hk, UNLOCK_CNT]
  · intro hle
    have hr : ¬ sub_u32 (now % 4294967296) v.lock_lastpress > UNLOCK_RST_TIMEOUT := by
      unfold UNLOCK_RST_TIMEOUT
      omega
    by_cases hk : e.key = InputKeyBack <;> simp [hr, hk, UNLOCK_CNT]

/-- Witness for C4: hint shown, counter 2, last press at tick 100; a Back press at tick
701 (601 later) restarts the count at 1, one at tick 700 would have counted to 3. -/
theorem C4_timeout_checked_against_previous_press_witness :
    ((desktop_view_locked_input ⟨InputKeyBack, InputTypeShort⟩ 701
        ⟨⟨false, 0, DesktopViewLockedStateLockedHintShown⟩, some 1000, 2, 100⟩).view.lock_count =
        (if (⟨InputKeyBack, InputTypeShort⟩ : InputEvent).key = InputKeyBack then 1 else 0) ∧
      DesktopLockedEventUnlocked ∉ (desktop_view_locked_input ⟨InputKeyBack, InputTypeShort⟩ 701
        ⟨⟨false, 0, DesktopViewLockedStateLockedHintShown⟩, some 1000, 2, 100⟩).events) ∧
    ((desktop_view_locked_input ⟨InputKeyBack, InputTypeShort⟩ 700
        ⟨⟨false, 0, DesktopViewLockedStateLockedHintShown⟩, some 1000, 2, 100⟩).view.lock_count =
        (if (⟨InputKeyBack, InputTypeShort⟩ : InputEvent).key = InputKeyBack then
          ((⟨⟨false, 0, DesktopViewLockedStateLockedHintShown⟩, some 1000, 2, 100⟩ :
            DesktopViewLocked).lock_count + 1) % 256 else 0) ∧
      (desktop_view_locked_input ⟨InputKeyBack, InputTypeShort⟩ 700
        ⟨⟨false, 0, DesktopViewLockedStateLockedHintShown⟩, some 1000, 2, 100⟩).events =
        (if (⟨InputKeyBack, InputTypeShort⟩ : InputEvent).key = InputKeyBack ∧
            ((⟨⟨false, 0, DesktopViewLockedStateLockedHintShown⟩, some 1000, 2, 100⟩ :
              DesktopViewLocked).lock_count + 1) % 256 = 3 then
          [DesktopLockedEventUnlocked] else [])) :=
  ⟨(C4_timeout_checked_against_previous_press
      ⟨⟨false, 0, DesktopViewLockedStateLockedHintShown⟩, some 1000, 2, 100⟩
      ⟨InputKeyBack, InputTypeShort⟩ 701 rfl (Or.inr rfl)).1 (by decide),
   (C4_timeout_checked_against_previous_press
      ⟨⟨false, 0, DesktopViewLockedStateLockedHintShown⟩, some 1000, 2, 100⟩
      ⟨InputKeyBack, InputTypeShort⟩ 700 rfl (Or.inr rfl)).2 (by decide)⟩

/-- C5: in state `Locked` without PIN or in state `LockedHintShown`, for every counter value
and every time, a short press of a key other than Back leaves `lock_count = 0` and hands no
`Unlocked` event to the callback. -/
theorem C5_other_key_resets_counter (v : DesktopViewLocked) (e : InputEvent) (now : Nat)
    (hs : e.type = InputTypeShort)
    (hst : (v.model.view_state = DesktopViewLockedStateLocked ∧ v.model.pin_locked = false) ∨
      v.model.view_state = DesktopViewLockedStateLockedHintShown)
    (hk : e.key ≠ InputKeyBack) :
    (desktop_view_locked_input e now v).view.lock_count = 0 ∧
    DesktopLockedEventUnlocked ∉ (desktop_view_locked_input e now v).events := by
  rw [input_gesture e now v hs hst]
  simp [hk]

/-- Witness for C5: counter 2, a short Ok press 50 ticks after the last press. -/
theorem C5_other_key_resets_counter_witness :
    (desktop_view_locked_input ⟨InputKeyOk, InputTypeShort⟩ 150
      ⟨⟨false, 0, DesktopViewLockedStateLocked⟩, none, 2, 100⟩).view.lock_count = 0 ∧
    DesktopLockedEventUnlocked ∉ (desktop_view_locked_input ⟨InputKeyOk, InputTypeShort⟩ 150
      ⟨⟨false, 0, DesktopViewLockedStateLocked⟩, none, 2, 100⟩).events :=
  C5_other_key_resets_counter ⟨⟨false, 0, DesktopViewLockedStateLocked⟩, none, 2, 100⟩
    ⟨InputKeyOk, InputTypeShort⟩ 150 rfl (Or.inl ⟨rfl, rfl⟩) (by decide)

/-- A tick in state `DoorsClosing` with the doors not closed yet: only the offset moves. -/
lemma update_doors_moving (v : DesktopViewLocked)
    (hst : v.model.view_state = DesktopViewLockedStateDoorsClosing)
    (hoff : v.model.door_offset < 0) :
    desktop_view_locked_update v =
      { v with model := { v.model with
          door_offset := CLAMP (v.model.door_offset + 5) DOOR_OFFSET_END DOOR_OFFSET_START } } := by
  obtain ⟨⟨pin, off, st⟩, tm, cnt, last⟩ := v
  simp only at hst hoff
  subst hst
  simp [desktop_view_locked_update, desktop_view_dumb_doors_move, DOOR_OFFSET_END, hoff]

/-- A tick in state `DoorsClosing` that finds the doors closed: only the state changes. -/
lemma update_doors_closed (v : DesktopViewLocked)
    (hst : v.model.view_state = DesktopViewLockedStateDoorsClosing)
    (hoff : ¬ v.model.door_offset < 0) :
    desktop_view_locked_update v =
      { v with model := { v.model with view_state := DesktopViewLockedStateLocked } } := by
  obtain ⟨⟨pin, off, st⟩, tm, cnt, last⟩ := v
  simp only at hst hoff
  subst hst
  simp [desktop_view_locked_update, desktop_view_dumb_doors_move, DOOR_OFFSET_END, hoff]

/-- A tick in a stable state (`Unlocked` or `Locked`) only stops the timer. -/
lemma update_stable (v : DesktopViewLocked)
    (hst : v.model.view_state = DesktopViewLockedStateUnlocked ∨
      v.model.view_state = DesktopViewLockedStateLocked) :
    desktop_view_locked_update v = { v with timer := none } := by
  obtain ⟨⟨pin, off, st⟩, tm, cnt, last⟩ := v
  simp only at hst
  rcases hst with h | h <;> subst h <;> simp [desktop_view_locked_update]

/-- The run of ticks after `desktop_view_locked_close_doors`: eleven moving ticks, one
tick that switches to `Locked`, one tick that stops the timer. -/
lemma closing_run (v w : DesktopViewLocked)
    (hc : desktop_view_locked_close_doors v = some w) (n : Nat) :
    (n ≤ 11 ∧ (run_updates n w).model.view_state = DesktopViewLockedStateDoorsClosing ∧
      (run_updates n w).model.door_offset = -55 + 5 * (n : Int) ∧
      (run_updates n w).timer = some DOOR_MOVING_INTERVAL_MS) ∨
    (n = 12 ∧ (run_updates n w).model.view_state = DesktopViewLockedStateLocked ∧
      (run_updates n w).model.door_offset = 0 ∧
      (run_updates n w).timer = some DOOR_MOVING_INTERVAL_MS) ∨
    (13 ≤ n ∧ (run_updates n w).model.view_state = DesktopViewLockedStateLocked ∧
      (run_updates n w).model.door_offset = 0 ∧
      (run_updates n w).timer = none) := by
  induction n with
  | zero =>
    left
    unfold desktop_view_locked_close_doors at hc
    split at hc
    · injection hc with hw
      subst hw
      simp [run_updates, DOOR_OFFSET_START]
    · exact absurd hc (by simp)
  | succ k ih =>
    rcases ih with ⟨hk, hst, hoff, htm⟩ | ⟨hk, hst, hoff, htm⟩ | ⟨hk, hst, hoff, htm⟩
    · by_cases hlt : k < 11
      · left
        have hneg : (run_updates k w).model.door_offset < 0 := by omega
        simp only [run_updates]
        rw [update_doors_moving _ hst hneg]
        refine ⟨by omega, hst, ?_, htm⟩
        show CLAMP ((run_updates k w).model.door_offset + 5) DOOR_OFFSET_END DOOR_OFFSET_START =
          -55 + 5 * ((k + 1 : Nat) : Int)
        simp only [CLAMP, DOOR_OFFSET_END, DOOR_OFFSET_START, hoff]
        omega
      · right; left
        have hz : ¬ (run_updates k w).model.door_offset < 0 := by omega
        simp only [run_updates]
        rw [update_doors_closed _ hst hz]
        refine ⟨by omega, rfl, ?_, htm⟩
        show (run_updates k w).model.door_offset = 0
        omega
    · right; right
      simp only [run_updates]
      rw [update_stable _ (Or.inr hst)]
      exact ⟨by omega, hst, hoff, rfl⟩
    · right; right
      simp only [run_updates]
      rw [update_stable _ (Or.inr hst)]
      exact ⟨by omega, hst, hoff, rfl⟩

/-- C6 (as amended): in state `DoorsClosing` with `door_offset` in `[-55, 0)`, a tick moves
`door_offset` by 5 toward 0 (capped at 0), leaves the state `DoorsClosing` and leaves the
timer as it is (running), also when the new offset is 0; the state becomes `Locked` on the
tick that finds `door_offset` already 0, and that tick leaves the offset at 0. -/
theorem C6_tick_moves_doors_and_locks_one_tick_later (v : DesktopViewLocked)
    (hst : v.model.view_state = DesktopViewLockedStateDoorsClosing)
    (hlo : -55 ≤ v.model.door_offset) (hhi : v.model.door_offset < 0) :
    (desktop_view_locked_update v).model.door_offset = min (v.model.door_offset + 5) 0 ∧
    (desktop_view_locked_update v).model.view_state = DesktopViewLockedStateDoorsClosing ∧
    (desktop_view_locked_update v).timer = v.timer ∧
    ((desktop_view_locked_update v).model.door_offset = 0 →
      (desktop_view_locked_update (desktop_view_locked_update v)).model.view_state =
        DesktopViewLockedStateLocked ∧
      (desktop_view_locked_update (desktop_view_locked_update v)).model.door_offset = 0) := by
  have hu := update_doors_moving v hst hhi
  have hs1 : (desktop_view_locked_update v).model.view_state =
      DesktopViewLockedStateDoorsClosing := by
    rw [hu]
    exact hst
  refine ⟨?_, hs1, by rw [hu], ?_⟩
  · rw [hu]
    show CLAMP (v.model.door_offset + 5) DOOR_OFFSET_END DOOR_OFFSET_START = _
    simp only [CLAMP, DOOR_OFFSET_END, DOOR_OFFSET_START]
    omega
  · intro h0
    rw [update_doors_closed (desktop_view_locked_update v) hs1 (by omega)]
    exact ⟨rfl, h0⟩

/-- Witness for C6: the doors at offset -5 with the animation timer running. -/
theorem C6_tick_moves_doors_and_locks_one_tick_later_witness :
    (desktop_view_locked_update
      ⟨⟨false, -5, DesktopViewLockedStateDoorsClosing⟩, some 62, 0, 0⟩).model.door_offset =
      min ((⟨⟨false, -5, DesktopViewLockedStateDoorsClosing⟩, some 62, 0, 0⟩ :
        DesktopViewLocked).model.door_offset + 5) 0 ∧
    (desktop_view_locked_update
      ⟨⟨false, -5, DesktopViewLockedStateDoorsClosing⟩, some 62, 0, 0⟩).model.view_state =
      DesktopViewLockedStateDoorsClosing ∧
    (desktop_view_locked_update
      ⟨⟨false, -5, DesktopViewLockedStateDoorsClosing⟩, some 62, 0, 0⟩).timer =
      (⟨⟨false, -5, DesktopViewLockedStateDoorsClosing⟩, some 62, 0, 0⟩ :
        DesktopViewLocked).timer ∧
    ((desktop_view_locked_update
        ⟨⟨false, -5, DesktopViewLockedStateDoorsClosing⟩, some 62, 0, 0⟩).model.door_offset = 0 →
      (desktop_view_locked_update (desktop_view_locked_update
        ⟨⟨false, -5, DesktopViewLockedStateDoorsClosing⟩, some 62, 0, 0⟩)).model.view_state =
        DesktopViewLockedStateLocked ∧
      (desktop_view_locked_update (desktop_view_locked_update
        ⟨⟨false, -5, DesktopViewLockedStateDoorsClosing⟩, some 62, 0, 0⟩)).model.door_offset =
        0) :=
  C6_tick_moves_doors_and_locks_one_tick_later
    ⟨⟨false, -5, DesktopViewLockedStateDoorsClosing⟩, some 62, 0, 0⟩ rfl (by decide) (by decide)

/-- Counterexample to C6 as stated: in state `DoorsClosing` with `door_offset = -5` and the
timer running, the tick brings the offset to 0, yet the state it leaves is `DoorsClosing`,
not `Locked`, and the timer is still running. -/
theorem C6_lock_on_same_tick_counterexample :
    (⟨⟨false, -5, DesktopViewLockedStateDoorsClosing⟩, some 62, 0, 0⟩ :
      DesktopViewLocked).model.view_state = DesktopViewLockedStateDoorsClosing ∧
    (desktop_view_locked_update
      ⟨⟨false, -5, DesktopViewLockedStateDoorsClosing⟩, some 62, 0, 0⟩).model.door_offset = 0 ∧
    ¬ ((desktop_view_locked_update
        ⟨⟨false, -5, DesktopViewLockedStateDoorsClosing⟩, some 62, 0, 0⟩).model.view_state =
        DesktopViewLockedStateLocked ∧
      (desktop_view_locked_update
        ⟨⟨false, -5, DesktopViewLockedStateDoorsClosing⟩, some 62, 0, 0⟩).timer = none) := by
  decide

/-- C7: after `desktop_view_locked_close_doors` on a locked view, under ticks alone,
`door_offset` stays within `[-55, 0]`, never decreases from one tick to the next, and is
exactly 0 after `ceil((0 - (-55)) / 5) = 11` ticks and after every later tick. -/
theorem C7_door_offset_monotone_and_closed_after_11_ticks (v w : DesktopViewLocked)
    (hc : desktop_view_locked_close_doors v = some w) (n : Nat) :
    v.model.view_state = DesktopViewLockedStateLocked ∧
    (DOOR_OFFSET_END - DOOR_OFFSET_START + (5 - 1)) / 5 = 11 ∧
    DOOR_OFFSET_START ≤ (run_updates n w).model.door_offset ∧
    (run_updates n w).model.door_offset ≤ DOOR_OFFSET_END ∧
    (run_updates n w).model.door_offset ≤ (run_updates (n + 1) w).model.door_offset ∧
    (11 ≤ n → (run_updates n w).model.door_offset = 0) := by
  have hv : v.model.view_state = DesktopViewLockedStateLocked := by
    unfold desktop_view_locked_close_doors at hc
    split at hc
    · assumption
    · exact absurd hc (by simp)
  have h1 := closing_run v w hc n
  have h2 := closing_run v w hc (n + 1)
  refine ⟨hv, by decide, ?_, ?_, ?_, ?_⟩
  · simp only [DOOR_OFFSET_START]
    rcases h1 with ⟨_, _, h, _⟩ | ⟨_, _, h, _⟩ | ⟨_, _, h, _⟩ <;> omega
  · simp only [DOOR_OFFSET_END]
    rcases h1 with ⟨_, _, h, _⟩ | ⟨_, _, h, _⟩ | ⟨_, _, h, _⟩ <;> omega
  · rcases h1 with ⟨_, _, h, _⟩ | ⟨_, _, h, _⟩ | ⟨_, _, h, _⟩ <;>
      rcases h2 with ⟨_, _, g, _⟩ | ⟨_, _, g, _⟩ | ⟨_, _, g, _⟩ <;> omega
  · intro hn
    rcases h1 with ⟨_, _, h, _⟩ | ⟨_, _, h, _⟩ | ⟨_, _, h, _⟩ <;> omega

/-- Witness for C7: the view locked without PIN, its doors closing, after 11 ticks. -/
theorem C7_door_offset_monotone_and_closed_after_11_ticks_witness :
    (⟨⟨false, 0, DesktopViewLockedStateLocked⟩, none, 0, 0⟩ :
      DesktopViewLocked).model.view_state = DesktopViewLockedStateLocked ∧
    (DOOR_OFFSET_END - DOOR_OFFSET_START + (5 - 1)) / 5 = 11 ∧
    DOOR_OFFSET_START ≤ (run_updates 11
      ⟨⟨false, -55, DesktopViewLockedStateDoorsClosing⟩, some 62, 0, 0⟩).model.door_offset ∧
    (run_updates 11
      ⟨⟨false, -55, DesktopViewLockedStateDoorsClosing⟩, some 62, 0, 0⟩).model.door_offset ≤
      DOOR_OFFSET_END ∧
    (run_updates 11
      ⟨⟨false, -55, DesktopViewLockedStateDoorsClosing⟩, some 62, 0, 0⟩).model.door_offset ≤
      (run_updates (11 + 1)
        ⟨⟨false, -55, DesktopViewLockedStateDoorsClosing⟩, some 62, 0, 0⟩).model.door_offset ∧
    (11 ≤ 11 → (run_updates 11
      ⟨⟨false, -55, DesktopViewLockedStateDoorsClosing⟩, some 62, 0, 0⟩).model.door_offset = 0) :=
  C7_door_offset_monotone_and_closed_after_11_ticks
    ⟨⟨false, 0, DesktopViewLockedStateLocked⟩, none, 0, 0⟩
    ⟨⟨false, -55, DesktopViewLockedStateDoorsClosing⟩, some 62, 0, 0⟩ rfl 11

/-- C8: the closing animation ends in the locked state.  After
`desktop_view_locked_close_doors` on a locked view, under ticks alone, there is a number of
ticks (13) from which on the state is `Locked` and the timer is stopped. -/
theorem C8_closing_animation_ends_locked_and_stopped (v w : DesktopViewLocked)
    (hc : desktop_view_locked_close_doors v = some w) :
    ∃ n : Nat, ∀ m : Nat, n ≤ m →
      (run_updates m w).model.view_state = DesktopViewLockedStateLocked ∧
      (run_updates m w).timer = none := by
  refine ⟨13, fun m hm => ?_⟩
  rcases closing_run v w hc m with ⟨hk, _, _, _⟩ | ⟨hk, _, _, _⟩ | ⟨_, hst, _, htm⟩
  · omega
  · omega
  · exact ⟨hst, htm⟩

/-- Witness for C8: the view locked without PIN with its doors closing. -/
theorem C8_closing_animation_ends_locked_and_stopped_witness :
    ∃ n : Nat, ∀ m : Nat, n ≤ m →
      (run_updates m
        ⟨⟨false, -55, DesktopViewLockedStateDoorsClosing⟩, some 62, 0, 0⟩).model.view_state =
        DesktopViewLockedStateLocked ∧
      (run_updates m
        ⟨⟨false, -55, DesktopViewLockedStateDoorsClosing⟩, some 62, 0, 0⟩).timer = none :=
  C8_closing_animation_ends_locked_and_stopped
    ⟨⟨false, 0, DesktopViewLockedStateLocked⟩, none, 0, 0⟩
    ⟨⟨false, -55, DesktopViewLockedStateDoorsClosing⟩, some 62, 0, 0⟩ rfl

/-- Ticks keep a reachable view reachable. -/
lemma reachable_run_updates (v : DesktopViewLocked) (h : Reachable v) (n : Nat) :
    Reachable (run_updates n v) := by
  induction n with
  | zero => exact h
  | succ k ih => exact Reachable.update _ ih

/-- Every reachable view satisfies `clock_inv`. -/
lemma reachable_clock_inv (v : DesktopViewLocked) (h : Reachable v) :
    clock_inv v.model.view_state v.timer := by
  induction h with
  | init v hst htm =>
    rw [hst, htm]
    exact Or.inl rfl
  | lock v w p _ hw ih =>
    unfold desktop_view_locked_lock at hw
    split at hw
    · rename_i hst
      injection hw with hw
      subst hw
      rw [hst] at ih
      rcases ih with h | h
      · exact Or.inl h
      · exact Or.inr (Or.inr h)
    · exact absurd hw (by simp)
  | close_doors v w _ hw ih =>
    unfold desktop_view_locked_close_doors at hw
    split at hw
    · injection hw with hw
      subst hw
      exact rfl
    · exact absurd hw (by simp)
  | unlock v _ ih => exact rfl
  | update v _ ih =>
    obtain ⟨⟨pin, off, st⟩, tm, cnt, last⟩ := v
    cases st
    · simp [desktop_view_locked_update, clock_inv]
    · simp [desktop_view_locked_update, clock_inv]
    · by_cases ho : off < DOOR_OFFSET_END
      · simpa [desktop_view_locked_update, desktop_view_dumb_doors_move, ho, clock_inv] using ih
      · have ih2 : tm = some DOOR_MOVING_INTERVAL_MS := ih
        simp [desktop_view_locked_update, desktop_view_dumb_doors_move, ho, clock_inv, ih2]
    · simp [desktop_view_locked_update, clock_inv]
    · simp [desktop_view_locked_update, clock_inv]
  | input v e t _ ih =>
    by_cases hs : e.type = InputTypeShort
    · by_cases hg : (v.model.view_state = DesktopViewLockedStateLocked ∧
          v.model.pin_locked = false) ∨
          v.model.view_state = DesktopViewLockedStateLockedHintShown
      · rw [input_gesture e t v hs hg]
        exact rfl
      · obtain ⟨⟨pin, off, st⟩, tm, cnt, last⟩ := v
        cases st <;> cases pin <;> simp at hg <;>
          simpa [desktop_view_locked_input, hs] using ih
    · obtain ⟨⟨pin, off, st⟩, tm, cnt, last⟩ := v
      by_cases hp : e.type = InputTypePress
      · cases st <;> simp [desktop_view_locked_input, hs, hp] <;>
          first
            | exact ih
            | exact Or.inr ih
      · cases st <;> simpa [desktop_view_locked_input, hs, hp] using ih

/-- C9 (as amended): in every view reachable from a fresh one (state `Unlocked`, timer
dormant) by the public operations within their assertions, the timer is running only if
the state is `DoorsClosing`, `LockedHintShown` or `UnlockedHintShown`, or the state is
`Unlocked` or `Locked` and the timer is the one the transient state just left kept running
(2000 ms after a press dismissed the unlocked hint, 62 ms after the tick that ended the
door animation); in that case the next tick stops it and leaves the state unchanged. -/
theorem C9_clock_runs_only_in_transient_states_or_until_next_tick (v : DesktopViewLocked)
    (h : Reachable v) (hrun : v.timer ≠ none) :
    (v.model.view_state = DesktopViewLockedStateDoorsClosing ∨
      v.model.view_state = DesktopViewLockedStateLockedHintShown ∨
      v.model.view_state = DesktopViewLockedStateUnlockedHintShown) ∨
    ((v.model.view_state = DesktopViewLockedStateUnlocked ∧
        v.timer = some UNLOCKED_HINT_TIMEOUT_MS ∨
      v.model.view_state = DesktopViewLockedStateLocked ∧
        (v.timer = some DOOR_MOVING_INTERVAL_MS ∨ v.timer = some UNLOCKED_HINT_TIMEOUT_MS)) ∧
      (desktop_view_locked_update v).model.view_state = v.model.view_state ∧
      (desktop_view_locked_update v).timer = none) := by
  have hinv := reachable_clock_inv v h
  cases hst : v.model.view_state with
  | DesktopViewLockedStateUnlocked =>
    right
    rw [hst] at hinv
    rw [update_stable v (Or.inl hst)]
    refine ⟨Or.inl ⟨rfl, ?_⟩, hst, rfl⟩
    rcases hinv with h0 | h0
    · exact absurd h0 hrun
    · exact h0
  | DesktopViewLockedStateLocked =>
    right
    rw [hst] at hinv
    rw [update_stable v (Or.inr hst)]
    refine ⟨Or.inr ⟨rfl, ?_⟩, hst, rfl⟩
    rcases hinv with h0 | h0
    · exact absurd h0 hrun
    · exact h0
  | DesktopViewLockedStateDoorsClosing => exact Or.inl (Or.inl rfl)
  | DesktopViewLockedStateLockedHintShown => exact Or.inl (Or.inr (Or.inl rfl))
  | DesktopViewLockedStateUnlockedHintShown => exact Or.inl (Or.inr (Or.inr rfl))

/-- Witness for C9: unlock the fresh view, then press Ok while the hint is shown; the
view is `Unlocked` with the 2000 ms timer still running until the next tick. -/
theorem C9_clock_runs_only_in_transient_states_or_until_next_tick_witness :
    Reachable (desktop_view_locked_input ⟨InputKeyOk, InputTypePress⟩ 0
      (desktop_view_locked_unlock desktop_view_locked_alloc)).view ∧
    (desktop_view_locked_input ⟨InputKeyOk, InputTypePress⟩ 0
      (desktop_view_locked_unlock desktop_view_locked_alloc)).view.timer ≠ none ∧
    (((desktop_view_locked_input ⟨InputKeyOk, InputTypePress⟩ 0
          (desktop_view_locked_unlock desktop_view_locked_alloc)).view.model.view_state =
        DesktopViewLockedStateDoorsClosing ∨
      (desktop_view_locked_input ⟨InputKeyOk, InputTypePress⟩ 0
          (desktop_view_locked_unlock desktop_view_locked_alloc)).view.model.view_state =
        DesktopViewLockedStateLockedHintShown ∨
      (desktop_view_locked_input ⟨InputKeyOk, InputTypePress⟩ 0
          (desktop_view_locked_unlock desktop_view_locked_alloc)).view.model.view_state =
        DesktopViewLockedStateUnlockedHintShown) ∨
    (((desktop_view_locked_input ⟨InputKeyOk, InputTypePress⟩ 0
          (desktop_view_locked_unlock desktop_view_locked_alloc)).view.model.view_state =
        DesktopViewLockedStateUnlocked ∧
        (desktop_view_locked_input ⟨InputKeyOk, InputTypePress⟩ 0
          (desktop_view_locked_unlock desktop_view_locked_alloc)).view.timer =
          some UNLOCKED_HINT_TIMEOUT_MS ∨
      (desktop_view_locked_input ⟨InputKeyOk, InputTypePress⟩ 0
          (desktop_view_locked_unlock desktop_view_locked_alloc)).view.model.view_state =
        DesktopViewLockedStateLocked ∧
        ((desktop_view_locked_input ⟨InputKeyOk, InputTypePress⟩ 0
          (desktop_view_locked_unlock desktop_view_locked_alloc)).view.timer =
          some DOOR_MOVING_INTERVAL_MS ∨
        (desktop_view_locked_input ⟨InputKeyOk, InputTypePress⟩ 0
          (desktop_view_locked_unlock desktop_view_locked_alloc)).view.timer =
          some UNLOCKED_HINT_TIMEOUT_MS)) ∧
      (desktop_view_locked_update (desktop_view_locked_input ⟨InputKeyOk, InputTypePress⟩ 0
          (desktop_view_locked_unlock desktop_view_locked_alloc)).view).model.view_state =
        (desktop_view_locked_input ⟨InputKeyOk, InputTypePress⟩ 0
          (desktop_view_locked_unlock desktop_view_locked_alloc)).view.model.view_state ∧
      (desktop_view_locked_update (desktop_view_locked_input ⟨InputKeyOk, InputTypePress⟩ 0
          (desktop_view_locked_unlock desktop_view_locked_alloc)).view).timer = none)) :=
  ⟨Reachable.input _ _ _ (Reachable.unlock _ (Reachable.init _ rfl rfl)),
   by decide,
   C9_clock_runs_only_in_transient_states_or_until_next_tick _
     (Reachable.input _ _ _ (Reachable.unlock _ (Reachable.init _ rfl rfl))) (by decide)⟩

/-- Counterexample to C9 as stated, one reachable view for each way into a stable state
with the timer running.  Unlock the fresh view and press Ok during the hint: the state is
`Unlocked` and the 2000 ms timer is running.  Lock the fresh view without PIN, close the
doors and let 12 ticks pass: the state is `Locked` and the 62 ms timer is running. -/
theorem C9_clock_running_in_stable_state_counterexample :
    (Reachable (desktop_view_locked_input ⟨InputKeyOk, InputTypePress⟩ 0
        (desktop_view_locked_unlock desktop_view_locked_alloc)).view ∧
      (desktop_view_locked_input ⟨InputKeyOk, InputTypePress⟩ 0
        (desktop_view_locked_unlock desktop_view_locked_alloc)).view.model.view_state =
        DesktopViewLockedStateUnlocked ∧
      (desktop_view_locked_input ⟨InputKeyOk, InputTypePress⟩ 0
        (desktop_view_locked_unlock desktop_view_locked_alloc)).view.timer = some 2000) ∧
    (desktop_view_locked_lock desktop_view_locked_alloc false =
        some ⟨⟨false, 0, DesktopViewLockedStateLocked⟩, none, 0, 0⟩ ∧
      desktop_view_locked_close_doors ⟨⟨false, 0, DesktopViewLockedStateLocked⟩, none, 0, 0⟩ =
        some ⟨⟨false, -55, DesktopViewLockedStateDoorsClosing⟩, some 62, 0, 0⟩ ∧
      Reachable (run_updates 12
        ⟨⟨false, -55, DesktopViewLockedStateDoorsClosing⟩, some 62, 0, 0⟩) ∧
      (run_updates 12
        ⟨⟨false, -55, DesktopViewLockedStateDoorsClosing⟩, some 62, 0, 0⟩).model.view_state =
        DesktopViewLockedStateLocked ∧
      (run_updates 12
        ⟨⟨false, -55, DesktopViewLockedStateDoorsClosing⟩, some 62, 0, 0⟩).timer = some 62) := by
  refine ⟨⟨Reachable.input _ _ _ (Reachable.unlock _ (Reachable.init _ rfl rfl)),
    by decide, by decide⟩, by decide, by decide, ?_, by decide, by decide⟩
  exact reachable_run_updates _
    (Reachable.close_doors ⟨⟨false, 0, DesktopViewLockedStateLocked⟩, none, 0, 0⟩ _
      (Reachable.lock desktop_view_locked_alloc _ false (Reachable.init _ rfl rfl) rfl) rfl) 12

/-- C10: in state `UnlockedHintShown`, for every key and every time, a press (key-down)
event sets the state to `Unlocked`, is reported as not consumed, hands no event to the
callback and leaves `lock_count` and `lock_lastpress` unchanged. -/
theorem C10_press_dismisses_unlocked_hint (v : DesktopViewLocked) (e : InputEvent) (now : Nat)
    (hst : v.model.view_state = DesktopViewLockedStateUnlockedHintShown)
    (hp : e.type = InputTypePress) :
    (desktop_view_locked_input e now v).view.model.view_state =
      DesktopViewLockedStateUnlocked ∧
    (desktop_view_locked_input e now v).consumed = false ∧
    (desktop_view_locked_input e now v).events = [] ∧
    (desktop_view_locked_input e now v).view.lock_count = v.lock_count ∧
    (desktop_view_locked_input e now v).view.lock_lastpress = v.lock_lastpress := by
  obtain ⟨⟨pin, off, st⟩, tm, cnt, last⟩ := v
  simp only at hst
  subst hst
  simp [desktop_view_locked_input, hp]

/-- Witness for C10: the hint shown by `desktop_view_locked_unlock`, dismissed by pressing
Ok at tick 123456. -/
theorem C10_press_dismisses_unlocked_hint_witness :
    (desktop_view_locked_input ⟨InputKeyOk, InputTypePress⟩ 123456
      (desktop_view_locked_unlock desktop_view_locked_alloc)).view.model.view_state =
      DesktopViewLockedStateUnlocked ∧
    (desktop_view_locked_input ⟨InputKeyOk, InputTypePress⟩ 123456
      (desktop_view_locked_unlock desktop_view_locked_alloc)).consumed = false ∧
    (desktop_view_locked_input ⟨InputKeyOk, InputTypePress⟩ 123456
      (desktop_view_locked_unlock desktop_view_locked_alloc)).events = [] ∧
    (desktop_view_locked_input ⟨InputKeyOk, InputTypePress⟩ 123456
      (desktop_view_locked_unlock desktop_view_locked_alloc)).view.lock_count =
      (desktop_view_locked_unlock desktop_view_locked_alloc).lock_count ∧
    (desktop_view_locked_input ⟨InputKeyOk, InputTypePress⟩ 123456
      (desktop_view_locked_unlock desktop_view_locked_alloc)).view.lock_lastpress =
      (desktop_view_locked_unlock desktop_view_locked_alloc).lock_lastpress :=
  C10_press_dismisses_unlocked_hint (desktop_view_locked_unlock desktop_view_locked_alloc)
    ⟨InputKeyOk, InputTypePress⟩ 123456 rfl rfl

/-- C11: hint expiry.  A tick in state `LockedHintShown` yields `Locked` with the timer
stopped, a tick in state `UnlockedHintShown` yields `Unlocked` with the timer stopped, a
tick in state `Unlocked` or `Locked` leaves the state as it is; in all four cases
`pin_locked`, `door_offset`, `lock_count` and `lock_lastpress` are unchanged. -/
theorem C11_tick_expires_hints (v : DesktopViewLocked) :
    (v.model.view_state = DesktopViewLockedStateLockedHintShown →
      (desktop_view_locked_update v).model.view_state = DesktopViewLockedStateLocked ∧
      (desktop_view_locked_update v).timer = none) ∧
    (v.model.view_state = DesktopViewLockedStateUnlockedHintShown →
      (desktop_view_locked_update v).model.view_state = DesktopViewLockedStateUnlocked ∧
      (desktop_view_locked_update v).timer = none) ∧
    (v.model.view_state = DesktopViewLockedStateUnlocked ∨
      v.model.view_state = DesktopViewLockedStateLocked →
      (desktop_view_locked_update v).model.view_state = v.model.view_state) ∧
    (v.model.view_state ≠ DesktopViewLockedStateDoorsClosing →
      (desktop_view_locked_update v).model.pin_locked = v.model.pin_locked ∧
      (desktop_view_locked_update v).model.door_offset = v.model.door_offset ∧
      (desktop_view_locked_update v).lock_count = v.lock_count ∧
      (desktop_view_locked_update v).lock_lastpress = v.lock_lastpress) := by
  obtain ⟨⟨pin, off, st⟩, tm, cnt, last⟩ := v
  cases st <;> simp [desktop_view_locked_update]

/-- Witness for C11: the four states other than `DoorsClosing`, each with offset 0,
counter 2 and last press at tick 100. -/
theorem C11_tick_expires_hints_witness :
    ((desktop_view_locked_update
        ⟨⟨false, 0, DesktopViewLockedStateLockedHintShown⟩, some 1000, 2, 100⟩).model.view_state
        = DesktopViewLockedStateLocked ∧
      (desktop_view_locked_update
        ⟨⟨false, 0, DesktopViewLockedStateLockedHintShown⟩, some 1000, 2, 100⟩).timer = none) ∧
    ((desktop_view_locked_update
        ⟨⟨false, 0, DesktopViewLockedStateUnlockedHintShown⟩, some 2000, 2, 100⟩).model.view_state
        = DesktopViewLockedStateUnlocked ∧
      (desktop_view_locked_update
        ⟨⟨false, 0, DesktopViewLockedStateUnlockedHintShown⟩, some 2000, 2, 100⟩).timer = none) ∧
    (desktop_view_locked_update
        ⟨⟨true, 0, DesktopViewLockedStateLocked⟩, some 62, 2, 100⟩).model.view_state =
      (⟨⟨true, 0, DesktopViewLockedStateLocked⟩, some 62, 2, 100⟩ :
        DesktopViewLocked).model.view_state ∧
    ((desktop_view_locked_update
        ⟨⟨true, 0, DesktopViewLockedStateLocked⟩, some 62, 2, 100⟩).model.pin_locked =
        (⟨⟨true, 0, DesktopViewLockedStateLocked⟩, some 62, 2, 100⟩ :
          DesktopViewLocked).model.pin_locked ∧
      (desktop_view_locked_update
        ⟨⟨true, 0, DesktopViewLockedStateLocked⟩, some 62, 2, 100⟩).model.door_offset =
        (⟨⟨true, 0, DesktopViewLockedStateLocked⟩, some 62, 2, 100⟩ :
          DesktopViewLocked).model.door_offset ∧
      (desktop_view_locked_update
        ⟨⟨true, 0, DesktopViewLockedStateLocked⟩, some 62, 2, 100⟩).lock_count =
        (⟨⟨true, 0, DesktopViewLockedStateLocked⟩, some 62, 2, 100⟩ :
          DesktopViewLocked).lock_count ∧
      (desktop_view_locked_update
        ⟨⟨true, 0, DesktopViewLockedStateLocked⟩, some 62, 2, 100⟩).lock_lastpress =
        (⟨⟨true, 0, DesktopViewLockedStateLocked⟩, some 62, 2, 100⟩ :
          DesktopViewLocked).lock_lastpress) :=
  ⟨(C11_tick_expires_hints
      ⟨⟨false, 0, DesktopViewLockedStateLockedHintShown⟩, some 1000, 2, 100⟩).1 rfl,
   (C11_tick_expires_hints
      ⟨⟨false, 0, DesktopViewLockedStateUnlockedHintShown⟩, some 2000, 2, 100⟩).2.1 rfl,
   (C11_tick_expires_hints
      ⟨⟨true, 0, DesktopViewLockedStateLocked⟩, some 62, 2, 100⟩).2.2.1 (Or.inr rfl),
   (C11_tick_expires_hints
      ⟨⟨true, 0, DesktopViewLockedStateLocked⟩, some 62, 2, 100⟩).2.2.2 (by decide)⟩

/-- C12: `desktop_view_locked_unlock` has no assertion, so it runs in every state; it
yields `lock_count = 0`, state `UnlockedHintShown`, `pin_locked = false` and the timer
running with a 2000 ms period, and leaves `lock_lastpress` and `door_offset` unchanged.  It
never calls the callback: the operation returns a view and no events. -/
theorem C12_unlock_shows_unlocked_hint (v : DesktopViewLocked) :
    (desktop_view_locked_unlock v).lock_count = 0 ∧
    (desktop_view_locked_unlock v).model.view_state =
      DesktopViewLockedStateUnlockedHintShown ∧
    (desktop_view_locked_unlock v).model.pin_locked = false ∧
    (desktop_view_locked_unlock v).timer = some 2000 ∧
    (desktop_view_locked_unlock v).lock_lastpress = v.lock_lastpress ∧
    (desktop_view_locked_unlock v).model.door_offset = v.model.door_offset :=
  ⟨rfl, rfl, rfl, rfl, rfl, rfl⟩

/-- C13: the two guarded operations fail exactly outside their required state.
`desktop_view_locked_lock v p` fails if and only if the state is not `Unlocked` and
otherwise yields state `Locked` with `pin_locked = p`; `desktop_view_locked_close_doors`
fails if and only if the state is not `Locked` and otherwise yields state `DoorsClosing`
with `door_offset = -55`. -/
theorem C13_guarded_operations_fail_outside_their_state (v : DesktopViewLocked) (p : Bool) :
    (desktop_view_locked_lock v p = none ↔
      v.model.view_state ≠ DesktopViewLockedStateUnlocked) ∧
    (v.model.view_state = DesktopViewLockedStateUnlocked →
      ∃ w, desktop_view_locked_lock v p = some w ∧
        w.model.view_state = DesktopViewLockedStateLocked ∧ w.model.pin_locked = p) ∧
    (desktop_view_locked_close_doors v = none ↔
      v.model.view_state ≠ DesktopViewLockedStateLocked) ∧
    (v.model.view_state = DesktopViewLockedStateLocked →
      ∃ w, desktop_view_locked_close_doors v = some w ∧
        w.model.view_state = DesktopViewLockedStateDoorsClosing ∧
        w.model.door_offset = -55) := by
  obtain ⟨⟨pin, off, st⟩, tm, cnt, last⟩ := v
  cases st <;>
    simp [desktop_view_locked_lock, desktop_view_locked_close_doors, DOOR_OFFSET_START]

/-- Witness for C13: locking the fresh view with PIN succeeds, closing the doors of the
locked view succeeds. -/
theorem C13_guarded_operations_fail_outside_their_state_witness :
    (∃ w, desktop_view_locked_lock desktop_view_locked_alloc true = some w ∧
        w.model.view_state = DesktopViewLockedStateLocked ∧ w.model.pin_locked = true) ∧
    (∃ w, desktop_view_locked_close_doors
          ⟨⟨true, 0, DesktopViewLockedStateLocked⟩, none, 0, 0⟩ = some w ∧
        w.model.view_state = DesktopViewLockedStateDoorsClosing ∧
        w.model.door_offset = -55) :=
  ⟨(C13_guarded_operations_fail_outside_their_state desktop_view_locked_alloc true).2.1 rfl,
   (C13_guarded_operations_fail_outside_their_state
      ⟨⟨true, 0, DesktopViewLockedStateLocked⟩, none, 0, 0⟩ true).2.2.2 rfl⟩

/-- C14: for every view, event and time, the input callback returns `true` if and only if
the state after the hint dismissal (a press in `UnlockedHintShown` makes it `Unlocked`) is
not `Unlocked`.  So every event delivered in state `Locked`, `DoorsClosing` or
`LockedHintShown` is consumed, no event delivered in state `Unlocked` is consumed, and the
callback returns `false` exactly when the state it leaves behind is `Unlocked`. -/
theorem C14_consumed_iff_not_unlocked (v : DesktopViewLocked) (e : InputEvent) (now : Nat) :
    ((desktop_view_locked_input e now v).consumed = true ↔
      (if v.model.view_state = DesktopViewLockedStateUnlockedHintShown ∧
          e.type = InputTypePress then DesktopViewLockedStateUnlocked
        else v.model.view_state) ≠ DesktopViewLockedStateUnlocked) ∧
    (v.model.view_state = DesktopViewLockedStateLocked ∨
      v.model.view_state = DesktopViewLockedStateDoorsClosing ∨
      v.model.view_state = DesktopViewLockedStateLockedHintShown →
      (desktop_view_locked_input e now v).consumed = true) ∧
    (v.model.view_state = DesktopViewLockedStateUnlocked →
      (desktop_view_locked_input e now v).consumed = false) ∧
    ((desktop_view_locked_input e now v).consumed = false ↔
      (desktop_view_locked_input e now v).view.model.view_state =
        DesktopViewLockedStateUnlocked) := by
  by_cases hs : e.type = InputTypeShort
  · by_cases hg : (v.model.view_state = DesktopViewLockedStateLocked ∧
        v.model.pin_locked = false) ∨
        v.model.view_state = DesktopViewLockedStateLockedHintShown
    · rw [input_gesture e now v hs hg]
      rcases hg with ⟨h, _⟩ | h <;> simp [h, hs]
    · obtain ⟨⟨pin, off, st⟩, tm, cnt, last⟩ := v
      cases st <;> cases pin <;> simp at hg <;> simp [desktop_view_locked_input, hs]
  · obtain ⟨⟨pin, off, st⟩, tm, cnt, last⟩ := v
    by_cases hp : e.type = InputTypePress
    · cases st <;> simp [desktop_view_locked_input, hs, hp]
    · cases st <;> simp [desktop_view_locked_input, hs, hp]

/-- Witness for C14: a long press of Ok on a view locked with PIN is consumed, a short
press of Back on the fresh (unlocked) view is not. -/
theorem C14_consumed_iff_not_unlocked_witness :
    (desktop_view_locked_input ⟨InputKeyOk, InputTypeLong⟩ 5
      ⟨⟨true, 0, DesktopViewLockedStateLocked⟩, none, 0, 0⟩).consumed = true ∧
    (desktop_view_locked_input ⟨InputKeyBack, InputTypeShort⟩ 5
      desktop_view_locked_alloc).consumed = false :=
  ⟨(C14_consumed_iff_not_unlocked ⟨⟨true, 0, DesktopViewLockedStateLocked⟩, none, 0, 0⟩
      ⟨InputKeyOk, InputTypeLong⟩ 5).2.1 (Or.inl rfl),
   (C14_consumed_iff_not_unlocked desktop_view_locked_alloc
      ⟨InputKeyBack, InputTypeShort⟩ 5).2.2.1 rfl⟩

/-- C15: the input callback touches the unlock counting only for a completed short press
in a gesture state.  If the event is not a short press, or the state is `Unlocked`,
`DoorsClosing` or `UnlockedHintShown`, the callback leaves `lock_count`, `lock_lastpress`,
`pin_locked`, `door_offset` and the timer unchanged and hands no event to the callback, and
the only state change it can make is `UnlockedHintShown` to `Unlocked` on a press. -/
theorem C15_input_frame_outside_gesture (v : DesktopViewLocked) (e : InputEvent) (now : Nat)
    (h : e.type ≠ InputTypeShort ∨
      v.model.view_state = DesktopViewLockedStateUnlocked ∨
      v.model.view_state = DesktopViewLockedStateDoorsClosing ∨
      v.model.view_state = DesktopViewLockedStateUnlockedHintShown) :
    (desktop_view_locked_input e now v).view.lock_count = v.lock_count ∧
    (desktop_view_locked_input e now v).view.lock_lastpress = v.lock_lastpress ∧
    (desktop_view_locked_input e now v).view.model.pin_locked = v.model.pin_locked ∧
    (desktop_view_locked_input e now v).view.model.door_offset = v.model.door_offset ∧
    (desktop_view_locked_input e now v).view.timer = v.timer ∧
    (desktop_view_locked_input e now v).events = [] ∧
    ((desktop_view_locked_input e now v).view.model.view_state = v.model.view_state ∨
      (v.model.view_state = DesktopViewLockedStateUnlockedHintShown ∧
        e.type = InputTypePress ∧
        (desktop_view_locked_input e now v).view.model.view_state =
          DesktopViewLockedStateUnlocked)) := by
  obtain ⟨⟨pin, off, st⟩, tm, cnt, last⟩ := v
  by_cases hs : e.type = InputTypeShort
  · simp only [hs, ne_eq, not_true_eq_false, false_or] at h
    rcases h with h | h | h <;> subst h <;> simp [desktop_view_locked_input, hs]
  · by_cases hp : e.type = InputTypePress
    · cases st <;> simp [desktop_view_locked_input, hs, hp]
    · cases st <;> simp [desktop_view_locked_input, hs, hp]

/-- Witness for C15: a long press of Back on a view showing the locked hint with counter 2
changes nothing. -/
theorem C15_input_frame_outside_gesture_witness :
    (desktop_view_locked_input ⟨InputKeyBack, InputTypeLong⟩ 150
      ⟨⟨false, 0, DesktopViewLockedStateLockedHintShown⟩, some 1000, 2, 100⟩).view.lock_count =
      (⟨⟨false, 0, DesktopViewLockedStateLockedHintShown⟩, some 1000, 2, 100⟩ :
        DesktopViewLocked).lock_count ∧
    (desktop_view_locked_input ⟨InputKeyBack, InputTypeLong⟩ 150
      ⟨⟨false, 0, DesktopViewLockedStateLockedHintShown⟩, some 1000, 2, 100⟩).view.lock_lastpress =
      (⟨⟨false, 0, DesktopViewLockedStateLockedHintShown⟩, some 1000, 2, 100⟩ :
        DesktopViewLocked).lock_lastpress ∧
    (desktop_view_locked_input ⟨InputKeyBack, InputTypeLong⟩ 150
      ⟨⟨false, 0, DesktopViewLockedStateLockedHintShown⟩, some 1000, 2,
        100⟩).view.model.pin_locked =
      (⟨⟨false, 0, DesktopViewLockedStateLockedHintShown⟩, some 1000, 2, 100⟩ :
        DesktopViewLocked).model.pin_locked ∧
    (desktop_view_locked_input ⟨InputKeyBack, InputTypeLong⟩ 150
      ⟨⟨false, 0, DesktopViewLockedStateLockedHintShown⟩, some 1000, 2,
        100⟩).view.model.door_offset =
      (⟨⟨false, 0, DesktopViewLockedStateLockedHintShown⟩, some 1000, 2, 100⟩ :
        DesktopViewLocked).model.door_offset ∧
    (desktop_view_locked_input ⟨InputKeyBack, InputTypeLong⟩ 150
      ⟨⟨false, 0, DesktopViewLockedStateLockedHintShown⟩, some 1000, 2, 100⟩).view.timer =
      (⟨⟨false, 0, DesktopViewLockedStateLockedHintShown⟩, some 1000, 2, 100⟩ :
        DesktopViewLocked).timer ∧
    (desktop_view_locked_input ⟨InputKeyBack, InputTypeLong⟩ 150
      ⟨⟨false, 0, DesktopViewLockedStateLockedHintShown⟩, some 1000, 2, 100⟩).events = [] ∧
    ((desktop_view_locked_input ⟨InputKeyBack, InputTypeLong⟩ 150
        ⟨⟨false, 0, DesktopViewLockedStateLockedHintShown⟩, some 1000, 2,
          100⟩).view.model.view_state =
        (⟨⟨false, 0, DesktopViewLockedStateLockedHintShown⟩, some 1000, 2, 100⟩ :
          DesktopViewLocked).model.view_state ∨
      ((⟨⟨false, 0, DesktopViewLockedStateLockedHintShown⟩, some 1000, 2, 100⟩ :
          DesktopViewLocked).model.view_state = DesktopViewLockedStateUnlockedHintShown ∧
        (⟨InputKeyBack, InputTypeLong⟩ : InputEvent).type = InputTypePress ∧
        (desktop_view_locked_input ⟨InputKeyBack, InputTypeLong⟩ 150
          ⟨⟨false, 0, DesktopViewLockedStateLockedHintShown⟩, some 1000, 2,
            100⟩).view.model.view_state = DesktopViewLockedStateUnlocked)) :=
  C15_input_frame_outside_gesture
    ⟨⟨false, 0, DesktopViewLockedStateLockedHintShown⟩, some 1000, 2, 100⟩
    ⟨InputKeyBack, InputTypeLong⟩ 150 (Or.inl (by decide))

/-- C16: the door step.  For every `door_offset` in `[-55, 0]` the offset left by
`desktop_view_dumb_doors_move` is `min (door_offset + 5) 0`, which lies in `[-55, 0]`
again; `pin_locked` and `view_state` are not changed. -/
theorem C16_doors_move_step (m : DesktopViewLockedModel)
    (hlo : DOOR_OFFSET_START ≤ m.door_offset) (hhi : m.door_offset ≤ DOOR_OFFSET_END) :
    (desktop_view_dumb_doors_move m).1.door_offset = min (m.door_offset + 5) 0 ∧
    DOOR_OFFSET_START ≤ (desktop_view_dumb_doors_move m).1.door_offset ∧
    (desktop_view_dumb_doors_move m).1.door_offset ≤ DOOR_OFFSET_END ∧
    (desktop_view_dumb_doors_move m).1.pin_locked = m.pin_locked ∧
    (desktop_view_dumb_doors_move m).1.view_state = m.view_state := by
  obtain ⟨pin, off, st⟩ := m
  simp only [DOOR_OFFSET_START, DOOR_OFFSET_END] at hlo hhi
  by_cases ho : off < 0
  · simp only [desktop_view_dumb_doors_move, DOOR_OFFSET_END, DOOR_OFFSET_START, CLAMP, ho,
      if_true, and_true]
    omega
  · simp only [desktop_view_dumb_doors_move, DOOR_OFFSET_END, DOOR_OFFSET_START, ho,
      if_false, and_true]
    omega

/-- Witness for C16: the doors at offset -3 of a view in state `DoorsClosing`. -/
theorem C16_doors_move_step_witness :
    (desktop_view_dumb_doors_move
      ⟨true, -3, DesktopViewLockedStateDoorsClosing⟩).1.door_offset =
      min ((⟨true, -3, DesktopViewLockedStateDoorsClosing⟩ :
        DesktopViewLockedModel).door_offset + 5) 0 ∧
    DOOR_OFFSET_START ≤ (desktop_view_dumb_doors_move
      ⟨true, -3, DesktopViewLockedStateDoorsClosing⟩).1.door_offset ∧
    (desktop_view_dumb_doors_move
      ⟨true, -3, DesktopViewLockedStateDoorsClosing⟩).1.door_offset ≤ DOOR_OFFSET_END ∧
    (desktop_view_dumb_doors_move
      ⟨true, -3, DesktopViewLockedStateDoorsClosing⟩).1.pin_locked =
      (⟨true, -3, DesktopViewLockedStateDoorsClosing⟩ : DesktopViewLockedModel).pin_locked ∧
    (desktop_view_dumb_doors_move
      ⟨true, -3, DesktopViewLockedStateDoorsClosing⟩).1.view_state =
      (⟨true, -3, DesktopViewLockedStateDoorsClosing⟩ : DesktopViewLockedModel).view_state :=
  C16_doors_move_step ⟨true, -3, DesktopViewLockedStateDoorsClosing⟩ (by decide) (by decide)

/-- C17: every counted press refreshes the hint and the stamp.  In state `Locked` without
PIN or in state `LockedHintShown`, for every key and every tick count `now` (a `uint32_t`
value), after a short press the state is `LockedHintShown`, the timer is running with a
1000 ms period, `lock_lastpress` equals `now`, and `pin_locked` and `door_offset` are
unchanged. -/
theorem C17_short_press_refreshes_hint_and_stamp (v : DesktopViewLocked) (e : InputEvent)
    (now : Nat) (hnow : now < 4294967296) (hs : e.type = InputTypeShort)
    (hst : (v.model.view_state = DesktopViewLockedStateLocked ∧ v.model.pin_locked = false) ∨
      v.model.view_state = DesktopViewLockedStateLockedHintShown) :
    (desktop_view_locked_input e now v).view.model.view_state =
      DesktopViewLockedStateLockedHintShown ∧
    (desktop_view_locked_input e now v).view.timer = some 1000 ∧
    (desktop_view_locked_input e now v).view.lock_lastpress = now ∧
    (desktop_view_locked_input e now v).view.model.pin_locked = v.model.pin_locked ∧
    (desktop_view_locked_input e now v).view.model.door_offset = v.model.door_offset := by
  rw [input_gesture e now v hs hst]
  exact ⟨rfl, rfl, Nat.mod_eq_of_lt hnow, rfl, rfl⟩

/-- Witness for C17: a short press of Up at tick 4000000000 on a view locked without PIN. -/
theorem C17_short_press_refreshes_hint_and_stamp_witness :
    (desktop_view_locked_input ⟨InputKeyUp, InputTypeShort⟩ 4000000000
      ⟨⟨false, -7, DesktopViewLockedStateLocked⟩, none, 1, 100⟩).view.model.view_state =
      DesktopViewLockedStateLockedHintShown ∧
    (desktop_view_locked_input ⟨InputKeyUp, InputTypeShort⟩ 4000000000
      ⟨⟨false, -7, DesktopViewLockedStateLocked⟩, none, 1, 100⟩).view.timer = some 1000 ∧
    (desktop_view_locked_input ⟨InputKeyUp, InputTypeShort⟩ 4000000000
      ⟨⟨false, -7, DesktopViewLockedStateLocked⟩, none, 1, 100⟩).view.lock_lastpress =
      4000000000 ∧
    (desktop_view_locked_input ⟨InputKeyUp, InputTypeShort⟩ 4000000000
      ⟨⟨false, -7, DesktopViewLockedStateLocked⟩, none, 1, 100⟩).view.model.pin_locked =
      (⟨⟨false, -7, DesktopViewLockedStateLocked⟩, none, 1, 100⟩ :
        DesktopViewLocked).model.pin_locked ∧
    (desktop_view_locked_input ⟨InputKeyUp, InputTypeShort⟩ 4000000000
      ⟨⟨false, -7, DesktopViewLockedStateLocked⟩, none, 1, 100⟩).view.model.door_offset =
      (⟨⟨false, -7, DesktopViewLockedStateLocked⟩, none, 1, 100⟩ :
        DesktopViewLocked).model.door_offset :=
  C17_short_press_refreshes_hint_and_stamp
    ⟨⟨false, -7, DesktopViewLockedStateLocked⟩, none, 1, 100⟩
    ⟨InputKeyUp, InputTypeShort⟩ 4000000000 (by decide) rfl (Or.inl ⟨rfl, rfl⟩)

/-- C18 (as amended): for every `door_offset` in `[-55, 0]`, the draw commands issued in
state `DoorsClosing` (with the door routine of this file) place the left door icon at
`x = (DOOR_L_FINAL_POS + door_offset) mod 256`, the value of the `uint8_t door_left_x`,
which is `door_offset + 256` for a negative offset and 0 for offset 0, and the right door
icon at `x = DOOR_R_FINAL_POS - door_offset = 60 - door_offset`; the two x coordinates sum
to 60 modulo 256, and at `door_offset = 0` the doors are at `x = 0` and `x = 60`. -/
theorem C18_door_icons_at_uint8_positions (env : DrawEnv) (m : DesktopViewLockedModel)
    (hst : m.view_state = DesktopViewLockedStateDoorsClosing)
    (hlo : -55 ≤ m.door_offset) (hhi : m.door_offset ≤ 0) :
    icon_xs I_DoorLeft_70x55 (desktop_view_locked_draw env desktop_view_dumb_doors_draw m) =
      [(DOOR_L_FINAL_POS + m.door_offset) % 256] ∧
    icon_xs I_DoorRight_70x55 (desktop_view_locked_draw env desktop_view_dumb_doors_draw m) =
      [DOOR_R_FINAL_POS - m.door_offset] ∧
    (DOOR_L_FINAL_POS + m.door_offset) % 256 =
      (if m.door_offset < 0 then m.door_offset + 256 else 0) ∧
    DOOR_R_FINAL_POS - m.door_offset = 60 - m.door_offset ∧
    ((DOOR_L_FINAL_POS + m.door_offset) % 256 + (DOOR_R_FINAL_POS - m.door_offset)) % 256 =
      60 ∧
    (m.door_offset = 0 →
      icon_xs I_DoorLeft_70x55
        (desktop_view_locked_draw env desktop_view_dumb_doors_draw m) = [0] ∧
      icon_xs I_DoorRight_70x55
        (desktop_view_locked_draw env desktop_view_dumb_doors_draw m) = [60]) := by
  obtain ⟨pin, off, st⟩ := m
  simp only at hst hlo hhi
  subst hst
  have hr : (DOOR_R_FINAL_POS - off) % 256 = DOOR_R_FINAL_POS - off := by
    unfold DOOR_R_FINAL_POS
    omega
  have hl : icon_xs I_DoorLeft_70x55 (desktop_view_locked_draw env
      desktop_view_dumb_doors_draw ⟨pin, off, DesktopViewLockedStateDoorsClosing⟩) =
      [(DOOR_L_FINAL_POS + off) % 256] := by
    simp [desktop_view_locked_draw, desktop_view_dumb_doors_draw, icon_xs]
  have hrx : icon_xs I_DoorRight_70x55 (desktop_view_locked_draw env
      desktop_view_dumb_doors_draw ⟨pin, off, DesktopViewLockedStateDoorsClosing⟩) =
      [DOOR_R_FINAL_POS - off] := by
    simp [desktop_view_locked_draw, desktop_view_dumb_doors_draw, icon_xs, hr]
  refine ⟨hl, hrx, ?_, ?_, ?_, ?_⟩
  · simp only [DOOR_L_FINAL_POS]
    split <;> omega
  · simp only [DOOR_R_FINAL_POS]
  · simp only [DOOR_L_FINAL_POS, DOOR_R_FINAL_POS]
    omega
  · intro h0
    have h1 : off = 0 := h0
    rw [hl, hrx, h1]
    exact ⟨rfl, rfl⟩

/-- Witness for C18: a 64 pixel high canvas, 55 pixel high door icons, the doors at
offset -20. -/
theorem C18_door_icons_at_uint8_positions_witness :
    icon_xs I_DoorLeft_70x55 (desktop_view_locked_draw ⟨64, 55, 13⟩
        desktop_view_dumb_doors_draw ⟨false, -20, DesktopViewLockedStateDoorsClosing⟩) =
      [(DOOR_L_FINAL_POS + (⟨false, -20, DesktopViewLockedStateDoorsClosing⟩ :
        DesktopViewLockedModel).door_offset) % 256] ∧
    icon_xs I_DoorRight_70x55 (desktop_view_locked_draw ⟨64, 55, 13⟩
        desktop_view_dumb_doors_draw ⟨false, -20, DesktopViewLockedStateDoorsClosing⟩) =
      [DOOR_R_FINAL_POS - (⟨false, -20, DesktopViewLockedStateDoorsClosing⟩ :
        DesktopViewLockedModel).door_offset] ∧
    (DOOR_L_FINAL_POS + (⟨false, -20, DesktopViewLockedStateDoorsClosing⟩ :
        DesktopViewLockedModel).door_offset) % 256 =
      (if (⟨false, -20, DesktopViewLockedStateDoorsClosing⟩ :
          DesktopViewLockedModel).door_offset < 0 then
        (⟨false, -20, DesktopViewLockedStateDoorsClosing⟩ :
          DesktopViewLockedModel).door_offset + 256 else 0) ∧
    DOOR_R_FINAL_POS - (⟨false, -20, DesktopViewLockedStateDoorsClosing⟩ :
        DesktopViewLockedModel).door_offset =
      60 - (⟨false, -20, DesktopViewLockedStateDoorsClosing⟩ :
        DesktopViewLockedModel).door_offset ∧
    ((DOOR_L_FINAL_POS + (⟨false, -20, DesktopViewLockedStateDoorsClosing⟩ :
        DesktopViewLockedModel).door_offset) % 256 +
      (DOOR_R_FINAL_POS - (⟨false, -20, DesktopViewLockedStateDoorsClosing⟩ :
        DesktopViewLockedModel).door_offset)) % 256 = 60 ∧
    ((⟨false, -20, DesktopViewLockedStateDoorsClosing⟩ :
        DesktopViewLockedModel).door_offset = 0 →
      icon_xs I_DoorLeft_70x55 (desktop_view_locked_draw ⟨64, 55, 13⟩
        desktop_view_dumb_doors_draw ⟨false, -20, DesktopViewLockedStateDoorsClosing⟩) = [0] ∧
      icon_xs I_DoorRight_70x55 (desktop_view_locked_draw ⟨64, 55, 13⟩
        desktop_view_dumb_doors_draw ⟨false, -20, DesktopViewLockedStateDoorsClosing⟩) =
        [60]) :=
  C18_door_icons_at_uint8_positions ⟨64, 55, 13⟩
    ⟨false, -20, DesktopViewLockedStateDoorsClosing⟩ rfl (by decide) (by decide)

/-- Counterexample to C18 as stated: with `door_offset = -55` (canvas 64 high, door icons
55 high) the draw commands in state `DoorsClosing` are the five below; the left door icon
is drawn at `x = 201`, not at `x = -55`, and the two x coordinates sum to 316, not 60. -/
theorem C18_left_door_x_wraps_counterexample :
    desktop_view_locked_draw ⟨64, 55, 13⟩ desktop_view_dumb_doors_draw
        ⟨false, -55, DesktopViewLockedStateDoorsClosing⟩ =
      [ DrawCommand.canvas_set_color_black,
        DrawCommand.canvas_draw_icon 201 9 I_DoorLeft_70x55,
        DrawCommand.canvas_draw_icon 115 9 I_DoorRight_70x55,
        DrawCommand.canvas_set_font FontPrimary,
        DrawCommand.elements_multiline_text_framed 42 43 "Locked" ] ∧
    icon_xs I_DoorLeft_70x55 (desktop_view_locked_draw ⟨64, 55, 13⟩
        desktop_view_dumb_doors_draw ⟨false, -55, DesktopViewLockedStateDoorsClosing⟩) ≠
      [DOOR_L_FINAL_POS + (-55)] ∧
    (icon_xs I_DoorLeft_70x55 (desktop_view_locked_draw ⟨64, 55, 13⟩
        desktop_view_dumb_doors_draw ⟨false, -55, DesktopViewLockedStateDoorsClosing⟩)).sum +
      (icon_xs I_DoorRight_70x55 (desktop_view_locked_draw ⟨64, 55, 13⟩
        desktop_view_dumb_doors_draw ⟨false, -55, DesktopViewLockedStateDoorsClosing⟩)).sum =
      316 := by
  decide

/-- C19: a view locked with PIN never shows the gesture hint.  In every view reachable
from a view in state `Unlocked` (any `pin_locked`) by the public operations within their
assertions, state `LockedHintShown` implies `pin_locked = false`. -/
theorem C19_hint_shown_implies_no_pin (v : DesktopViewLocked)
    (h : ReachableFromUnlocked v)
    (hst : v.model.view_state = DesktopViewLockedStateLockedHintShown) :
    v.model.pin_locked = false := by
  induction h with
  | init v h0 =>
    rw [h0] at hst
    exact absurd hst (by decide)
  | lock v w p _ hw _ =>
    unfold desktop_view_locked_lock at hw
    split at hw
    · injection hw with hw
      subst hw
      exact absurd hst (by simp)
    · exact absurd hw (by simp)
  | close_doors v w _ hw _ =>
    unfold desktop_view_locked_close_doors at hw
    split at hw
    · injection hw with hw
      subst hw
      exact absurd hst (by simp)
    · exact absurd hw (by simp)
  | unlock v _ _ => rfl
  | update v _ _ =>
    obtain ⟨⟨pin, off, st⟩, tm, cnt, last⟩ := v
    by_cases ho : off < DOOR_OFFSET_END <;> cases st <;>
      simp [desktop_view_locked_update, desktop_view_dumb_doors_move, ho] at hst
  | input v e t _ ih =>
    by_cases hs : e.type = InputTypeShort
    · by_cases hg : (v.model.view_state = DesktopViewLockedStateLocked ∧
          v.model.pin_locked = false) ∨
          v.model.view_state = DesktopViewLockedStateLockedHintShown
      · rw [input_gesture e t v hs hg]
        rcases hg with ⟨_, hp⟩ | hh
        · exact hp
        · exact ih hh
      · obtain ⟨⟨pin, off, st⟩, tm, cnt, last⟩ := v
        cases st <;> cases pin <;> simp at hg <;>
          simp [desktop_view_locked_input, hs] at hst
    · obtain ⟨⟨pin, off, st⟩, tm, cnt, last⟩ := v
      by_cases hp : e.type = InputTypePress
      · cases st <;> simp [desktop_view_locked_input, hs, hp] at hst
        simpa [desktop_view_locked_input, hs, hp] using ih rfl
      · cases st <;> simp [desktop_view_locked_input, hs, hp] at hst
        simpa [desktop_view_locked_input, hs, hp] using ih rfl

/-- Witness for C19: start unlocked with `pin_locked` still set, unlock (which clears it),
dismiss the hint by a tick, lock without PIN and press Back: the hint is shown. -/
theorem C19_hint_shown_implies_no_pin_witness :
    ReachableFromUnlocked (desktop_view_locked_input ⟨InputKeyBack, InputTypeShort⟩ 9
      ⟨⟨false, 0, DesktopViewLockedStateLocked⟩, none, 0, 0⟩).view ∧
    (desktop_view_locked_input ⟨InputKeyBack, InputTypeShort⟩ 9
      ⟨⟨false, 0, DesktopViewLockedStateLocked⟩, none, 0, 0⟩).view.model.view_state =
      DesktopViewLockedStateLockedHintShown ∧
    (desktop_view_locked_input ⟨InputKeyBack, InputTypeShort⟩ 9
      ⟨⟨false, 0, DesktopViewLockedStateLocked⟩, none, 0, 0⟩).view.model.pin_locked = false :=
  ⟨ReachableFromUnlocked.input _ _ _
      (ReachableFromUnlocked.lock
        (desktop_view_locked_update (desktop_view_locked_unlock
          ⟨⟨true, 0, DesktopViewLockedStateUnlocked⟩, none, 0, 0⟩)) _ false
        (ReachableFromUnlocked.update _ (ReachableFromUnlocked.unlock _
          (ReachableFromUnlocked.init _ rfl))) rfl),
   rfl,
   C19_hint_shown_implies_no_pin _
     (ReachableFromUnlocked.input _ _ _
      (ReachableFromUnlocked.lock
        (desktop_view_locked_update (desktop_view_locked_unlock
          ⟨⟨true, 0, DesktopViewLockedStateUnlocked⟩, none, 0, 0⟩)) _ false
        (ReachableFromUnlocked.update _ (ReachableFromUnlocked.unlock _
          (ReachableFromUnlocked.init _ rfl))) rfl)) rfl⟩

/-- C20: the `Unlocked` event fires only on the exact threshold.  For every view, event and
tick count, the input callback emits `Unlocked` if and only if the event is a short press
of Back handled in state `Locked` without PIN or in state `LockedHintShown` and the 8-bit
counter after the increment (mod 256, after the timeout reset if any) is exactly 3; that
value is then the stored `lock_count`.  In particular a Back press within the window when
`lock_count` is already 3 raises it to 4 and emits nothing. -/
theorem C20_unlocked_only_on_exact_threshold (v : DesktopViewLocked) (e : InputEvent)
    (now : Nat) :
    (DesktopLockedEventUnlocked ∈ (desktop_view_locked_input e now v).events ↔
      e.type = InputTypeShort ∧ e.key = InputKeyBack ∧
      ((v.model.view_state = DesktopViewLockedStateLocked ∧ v.model.pin_locked = false) ∨
        v.model.view_state = DesktopViewLockedStateLockedHintShown) ∧
      ((if ((now : Int) - (v.lock_lastpress : Int)) % 4294967296 > 600 then 0
        else v.lock_count) + 1) % 256 = 3) ∧
    (DesktopLockedEventUnlocked ∈ (desktop_view_locked_input e now v).events →
      (desktop_view_locked_input e now v).view.lock_count = 3) ∧
    (e.type = InputTypeShort → e.key = InputKeyBack →
      (v.model.view_state = DesktopViewLockedStateLocked ∧ v.model.pin_locked = false) ∨
        v.model.view_state = DesktopViewLockedStateLockedHintShown →
      ((now : Int) - (v.lock_lastpress : Int)) % 4294967296 ≤ 600 → v.lock_count = 3 →
      (desktop_view_locked_input e now v).view.lock_count = 4 ∧
      (desktop_view_locked_input e now v).events = []) := by
  have hd := sub_u32_eq_emod now v.lock_lastpress
  have hto : (((now : Int) - (v.lock_lastpress : Int)) % 4294967296 > 600) ↔
      sub_u32 (now % 4294967296) v.lock_lastpress > UNLOCK_RST_TIMEOUT := by
    unfold UNLOCK_RST_TIMEOUT
    omega
  by_cases hs : e.type = InputTypeShort
  · by_cases hg : (v.model.view_state = DesktopViewLockedStateLocked ∧
        v.model.pin_locked = false) ∨
        v.model.view_state = DesktopViewLockedStateLockedHintShown
    · rw [input_gesture e now v hs hg]
      by_cases hk : e.key = InputKeyBack
      · by_cases hr : sub_u32 (now % 4294967296) v.lock_lastpress > UNLOCK_RST_TIMEOUT
        · have hr2 := hto.mpr hr
          have hr3 : ¬ ((now : Int) - (v.lock_lastpress : Int)) % 4294967296 ≤ 600 := by omega
          simp [hs, hk, hg, hr, hr2, hr3, UNLOCK_CNT]
        · have hr2 : ¬ ((now : Int) - (v.lock_lastpress : Int)) % 4294967296 > 600 :=
            fun h => hr (hto.mp h)
          simp only [hs, hk, hg, hr, hr2, UNLOCK_CNT, if_true, if_false, true_and, and_true,
            true_implies]
          refine ⟨?_, ?_, ?_⟩
          · by_cases h3 : (v.lock_count + 1) % 256 = 3 <;> simp [h3]
          · by_cases h3 : (v.lock_count + 1) % 256 = 3 <;> simp [h3]
          · intro _ hc
            simp [hc]
      · simp [hs, hk]
    · obtain ⟨⟨pin, off, st⟩, tm, cnt, last⟩ := v
      cases st <;> cases pin <;> simp at hg <;>
        simp [desktop_view_locked_input, hs]
  · obtain ⟨⟨pin, off, st⟩, tm, cnt, last⟩ := v
    by_cases hp : e.type = InputTypePress
    · cases st <;> simp [desktop_view_locked_input, hs, hp]
    · cases st <;> simp [desktop_view_locked_input, hs, hp]

/-- Witness for C20: hint shown, last press at tick 100; with the counter at 2 a Back press
at tick 300 emits `Unlocked` and stores 3, with the counter at 3 it stores 4 and emits
nothing. -/
theorem C20_unlocked_only_on_exact_threshold_witness :
    (desktop_view_locked_input ⟨InputKeyBack, InputTypeShort⟩ 300
      ⟨⟨false, 0, DesktopViewLockedStateLockedHintShown⟩, some 1000, 2, 100⟩).view.lock_count
      = 3 ∧
    ((desktop_view_locked_input ⟨InputKeyBack, InputTypeShort⟩ 300
      ⟨⟨false, 0, DesktopViewLockedStateLockedHintShown⟩, some 1000, 3, 100⟩).view.lock_count
      = 4 ∧
    (desktop_view_locked_input ⟨InputKeyBack, InputTypeShort⟩ 300
      ⟨⟨false, 0, DesktopViewLockedStateLockedHintShown⟩, some 1000, 3, 100⟩).events = []) :=
  ⟨(C20_unlocked_only_on_exact_threshold
      ⟨⟨false, 0, DesktopViewLockedStateLockedHintShown⟩, some 1000, 2, 100⟩
      ⟨InputKeyBack, InputTypeShort⟩ 300).2.1 (by decide),
   (C20_unlocked_only_on_exact_threshold
      ⟨⟨false, 0, DesktopViewLockedStateLockedHintShown⟩, some 1000, 3, 100⟩
      ⟨InputKeyBack, InputTypeShort⟩ 300).2.2 rfl rfl (Or.inr rfl) (by decide) rfl⟩

end DesktopViewDumb
